import Mathlib

/-!
Verification of the graphdemo repository: pydantic entity schemas with a
minimal-field projection (`to_minimal_dict`), a hand-built record graph of
sample billing entities (`create_graph` in `src/demo/main.py`), and its JSON
serialization (`serialize_graph`).  Python values are embedded shallowly:
`decimal.Decimal` as an integer mantissa with a nonnegative scale, dates and
datetimes as records of numeric components, JSON documents as an inductive
tree, and the networkx `DiGraph` as insertion-ordered node and adjacency
lists.
-/

namespace GraphDemo

/-- A `decimal.Decimal` in the plain fixed-point form used throughout the
repository: the value is `mant / 10 ^ scale`, with trailing zeros kept
(`Decimal "99.990"` is `⟨99990, 3⟩`, distinct from `⟨9999, 2⟩`). -/
structure Dec where
  mant : Int
  scale : Nat
deriving DecidableEq, Repr

/-- A `datetime.date`: calendar components. -/
structure Date where
  year : Nat
  month : Nat
  day : Nat
deriving DecidableEq, Repr

/-- A `datetime.datetime` (naive, as in the repository's literals). -/
structure DateTime where
  date : Date
  hour : Nat
  minute : Nat
  second : Nat
  microsecond : Nat
deriving DecidableEq, Repr

/-- The character for a single decimal digit. -/
def digitChar (d : Nat) : Char := Char.ofNat (48 + d)

/-- Numeric value of a digit character. -/
def charVal (c : Char) : Nat := c.toNat - 48

/-- Whether a character is an ASCII digit. -/
def isDigit (c : Char) : Bool := 48 ≤ c.toNat && c.toNat ≤ 57

/-- Decimal digit characters of `n`, most significant first, via explicit
fuel so that the definition is structural and kernel-computable. -/
def natCharsAux : Nat → Nat → List Char
  | 0, _ => []
  | fuel + 1, n =>
    if n < 10 then [digitChar n]
    else natCharsAux fuel (n / 10) ++ [digitChar (n % 10)]

/-- Decimal digit characters of `n`, most significant first (CPython's
rendering of a nonnegative integer). -/
def natChars (n : Nat) : List Char := natCharsAux (n + 1) n

/-- `natChars` left-padded with zeros to width `w` (CPython's
zero-padded fixed-width rendering, as in `isoformat`). -/
def padChars (w n : Nat) : List Char :=
  let ds := natChars n
  List.replicate (w - ds.length) '0' ++ ds

/-- Numeric value of a list of digit characters (the usual left fold). -/
def foldDigits (cs : List Char) : Nat :=
  cs.foldl (fun a c => 10 * a + charVal c) 0

/-- Characters of `str(Decimal)` restricted to the plain fixed-point forms
this repository produces: optional sign, integer digits, and — when the
scale is positive — a point followed by exactly `scale` fraction digits. -/
def decChars (d : Dec) : List Char :=
  let a := d.mant.natAbs
  let body :=
    if d.scale = 0 then natChars a
    else natChars (a / 10 ^ d.scale) ++ '.' :: padChars d.scale (a % 10 ^ d.scale)
  if d.mant < 0 then '-' :: body else body

/-- `str(Decimal)` (equally the string pydantic's JSON mode emits for a
`Decimal` field: both render the decimal's canonical fixed-point string). -/
def decStr (d : Dec) : String := String.mk (decChars d)

/-- Characters of `date.isoformat()`: `YYYY-MM-DD` (also `str(date)`,
which CPython defines as `isoformat`). -/
def dateChars (d : Date) : List Char :=
  padChars 4 d.year ++ '-' :: (padChars 2 d.month ++ '-' :: padChars 2 d.day)

/-- `date.isoformat()` as a string. -/
def dateStr (d : Date) : String := String.mk (dateChars d)

/-- Characters of the time-of-day part shared by `datetime.isoformat()` and
`str(datetime)`: `HH:MM:SS`, with `.ffffff` appended only when the
microsecond component is nonzero. -/
def timeChars (t : DateTime) : List Char :=
  padChars 2 t.hour ++ ':' :: (padChars 2 t.minute ++ ':' :: padChars 2 t.second)
    ++ (if t.microsecond = 0 then [] else '.' :: padChars 6 t.microsecond)

/-- `datetime.isoformat()`: date, a literal `T`, then the time part.  This is
the rendering pydantic's JSON mode uses for `datetime` fields. -/
def dtIso (t : DateTime) : String :=
  String.mk (dateChars t.date ++ 'T' :: timeChars t)

/-- `str(datetime)`: date, a space, then the time part (CPython implements
`__str__` as `isoformat(sep=" ")`).  This is what `json.dumps(..., default=str)`
applies to a `datetime` left in python form. -/
def dtStr (t : DateTime) : String :=
  String.mk (dateChars t.date ++ ' ' :: timeChars t)

/-- The `ApplyType(str, Enum)` closed set from `fee_rate.py`. -/
inductive ApplyType where
  | DEFAULT | PER_ITEM | PERCENTAGE | BOTH | NONE | FLAT
deriving DecidableEq, Repr

/-- Underlying string value of an `ApplyType` tag. -/
def ApplyType.value : ApplyType → String
  | .DEFAULT => "DEFAULT"
  | .PER_ITEM => "PER_ITEM"
  | .PERCENTAGE => "PERCENTAGE"
  | .BOTH => "BOTH"
  | .NONE => "NONE"
  | .FLAT => "FLAT"

/-- The `EntityType(str, Enum)` closed set from `billing_entity.py`. -/
inductive EntityType where
  | MERCHANT | RESELLER | DEVELOPER | PSEUDO | ARCHETYPE
deriving DecidableEq, Repr

/-- Underlying string value of an `EntityType` tag. -/
def EntityType.value : EntityType → String
  | .MERCHANT => "MERCHANT"
  | .RESELLER => "RESELLER"
  | .DEVELOPER => "DEVELOPER"
  | .PSEUDO => "PSEUDO"
  | .ARCHETYPE => "ARCHETYPE"

/-- The `Literal["PAYABLE", "RECEIVABLE"]` tag from `settlement.py`. -/
inductive PayRec where
  | PAYABLE | RECEIVABLE
deriving DecidableEq, Repr

/-- Underlying string value of a `PayRec` tag. -/
def PayRec.value : PayRec → String
  | .PAYABLE => "PAYABLE"
  | .RECEIVABLE => "RECEIVABLE"

/-- A flat JSON value as it appears inside a node's `minimal` or rendered
`others` mapping (no object or array valued attributes occur there). -/
inductive J where
  | null
  | int (n : Int)
  | str (s : String)
deriving DecidableEq, Repr

/-- A python-mode attribute value as produced by `model_dump()`: decimals,
dates, datetimes and enum members are still python objects at this stage. -/
inductive PyVal where
  | int (n : Int)
  | str (s : String)
  | dec (d : Dec)
  | date (d : Date)
  | datetime (t : DateTime)
  | enum (s : String)
  | pynone
deriving DecidableEq, Repr

/-- What `json.dumps(..., default=str)` makes of a python-mode value:
ints and strings are native; `None` is `null`; decimals, dates and datetimes
go through `str()`; a `(str, Enum)` member is serialized as its string
content, which is the enum's value. -/
def pyToJ : PyVal → J
  | .int n => .int n
  | .str s => .str s
  | .dec d => .str (decStr d)
  | .date d => .str (dateStr d)
  | .datetime t => .str (dtStr t)
  | .enum s => .str s
  | .pynone => .null

/-- JSON-mode rendering of an optional field: `null` when unset. -/
def optJ (f : α → J) : Option α → J
  | some a => f a
  | none => .null

/-- Python-mode value of an optional field: `None` when unset. -/
def optPy (f : α → PyVal) : Option α → PyVal
  | some a => f a
  | none => .pynone

/-- The `fee_rate` model of `src/demo/models/ebb/fee_rate.py`, fields in
declaration order. -/
structure FeeRate where
  id : Int
  uuid : String
  billing_entity_uuid : String
  fee_category : String
  fee_code : String
  currency : String
  effective_date : Date
  apply_type : ApplyType
  per_item_amount : Option Dec
  percentage : Option Dec
  created_timestamp : DateTime
  modified_timestamp : DateTime
  audit_id : Option String
deriving DecidableEq, Repr

/-- `MINIMAL_FIELDS` of `MinimalFeeRateMixin`, in source order. -/
def FeeRate.MINIMAL_FIELDS : List String :=
  ["fee_category", "fee_code", "currency", "apply_type", "per_item_amount",
   "percentage", "effective_date"]

/-- `model_dump()` of a `FeeRate`: the full attribute mapping with python
values, keys in field declaration order. -/
def FeeRate.model_dump (r : FeeRate) : List (String × PyVal) :=
  [("id", .int r.id),
   ("uuid", .str r.uuid),
   ("billing_entity_uuid", .str r.billing_entity_uuid),
   ("fee_category", .str r.fee_category),
   ("fee_code", .str r.fee_code),
   ("currency", .str r.currency),
   ("effective_date", .date r.effective_date),
   ("apply_type", .enum r.apply_type.value),
   ("per_item_amount", optPy .dec r.per_item_amount),
   ("percentage", optPy .dec r.percentage),
   ("created_timestamp", .datetime r.created_timestamp),
   ("modified_timestamp", .datetime r.modified_timestamp),
   ("audit_id", optPy .str r.audit_id)]

/-- `model_dump_json()` of a `FeeRate` as an association list: decimals as
strings, the date and the timestamps as ISO-8601 strings, the enum tag as its
value, unset optionals as `null`. -/
def FeeRate.model_dump_json (r : FeeRate) : List (String × J) :=
  [("id", .int r.id),
   ("uuid", .str r.uuid),
   ("billing_entity_uuid", .str r.billing_entity_uuid),
   ("fee_category", .str r.fee_category),
   ("fee_code", .str r.fee_code),
   ("currency", .str r.currency),
   ("effective_date", .str (dateStr r.effective_date)),
   ("apply_type", .str r.apply_type.value),
   ("per_item_amount", optJ (fun d => .str (decStr d)) r.per_item_amount),
   ("percentage", optJ (fun d => .str (decStr d)) r.percentage),
   ("created_timestamp", .str (dtIso r.created_timestamp)),
   ("modified_timestamp", .str (dtIso r.modified_timestamp)),
   ("audit_id", optJ .str r.audit_id)]

/-- The `billing_entity` model of `billing_entity.py`. -/
structure BillingEntity where
  id : Int
  uuid : String
  entity_uuid : String
  entity_type : EntityType
  name : Option String
  created_timestamp : DateTime
  modified_timestamp : DateTime
deriving DecidableEq, Repr

/-- `MINIMAL_FIELDS` of `MinimalBillingEntityMixin`, in source order. -/
def BillingEntity.MINIMAL_FIELDS : List String := ["entity_type", "name"]

/-- `model_dump()` of a `BillingEntity`. -/
def BillingEntity.model_dump (r : BillingEntity) : List (String × PyVal) :=
  [("id", .int r.id),
   ("uuid", .str r.uuid),
   ("entity_uuid", .str r.entity_uuid),
   ("entity_type", .enum r.entity_type.value),
   ("name", optPy .str r.name),
   ("created_timestamp", .datetime r.created_timestamp),
   ("modified_timestamp", .datetime r.modified_timestamp)]

/-- `model_dump_json()` of a `BillingEntity`. -/
def BillingEntity.model_dump_json (r : BillingEntity) : List (String × J) :=
  [("id", .int r.id),
   ("uuid", .str r.uuid),
   ("entity_uuid", .str r.entity_uuid),
   ("entity_type", .str r.entity_type.value),
   ("name", optJ .str r.name),
   ("created_timestamp", .str (dtIso r.created_timestamp)),
   ("modified_timestamp", .str (dtIso r.modified_timestamp))]

/-- The `fee_summary` model of `fee_summary.py`. -/
structure FeeSummary where
  id : Int
  uuid : String
  billing_entity_uuid : String
  billing_date : Date
  fee_category : String
  fee_code : String
  currency : String
  total_period_units : Dec
  abs_period_units : Dec
  total_basis_amount : Dec
  abs_basis_amount : Dec
  total_fee_amount : Dec
  fee_rate_uuid : String
  request_uuid : String
  invoice_info_uuid : Option String
  fee_code_ledger_account_uuid : Option String
  credit_ledger_account_uuid : Option String
  debit_ledger_account_uuid : Option String
  exclude_from_invoice : Int
  created_timestamp : DateTime
  modified_timestamp : DateTime
deriving DecidableEq, Repr

/-- `MINIMAL_FIELDS` of `MinimalFeeSummaryMixin`, in source order. -/
def FeeSummary.MINIMAL_FIELDS : List String :=
  ["total_period_units", "total_fee_amount", "total_basis_amount"]

/-- `model_dump()` of a `FeeSummary`. -/
def FeeSummary.model_dump (r : FeeSummary) : List (String × PyVal) :=
  [("id", .int r.id),
   ("uuid", .str r.uuid),
   ("billing_entity_uuid", .str r.billing_entity_uuid),
   ("billing_date", .date r.billing_date),
   ("fee_category", .str r.fee_category),
   ("fee_code", .str r.fee_code),
   ("currency", .str r.currency),
   ("total_period_units", .dec r.total_period_units),
   ("abs_period_units", .dec r.abs_period_units),
   ("total_basis_amount", .dec r.total_basis_amount),
   ("abs_basis_amount", .dec r.abs_basis_amount),
   ("total_fee_amount", .dec r.total_fee_amount),
   ("fee_rate_uuid", .str r.fee_rate_uuid),
   ("request_uuid", .str r.request_uuid),
   ("invoice_info_uuid", optPy .str r.invoice_info_uuid),
   ("fee_code_ledger_account_uuid", optPy .str r.fee_code_ledger_account_uuid),
   ("credit_ledger_account_uuid", optPy .str r.credit_ledger_account_uuid),
   ("debit_ledger_account_uuid", optPy .str r.debit_ledger_account_uuid),
   ("exclude_from_invoice", .int r.exclude_from_invoice),
   ("created_timestamp", .datetime r.created_timestamp),
   ("modified_timestamp", .datetime r.modified_timestamp)]

/-- `model_dump_json()` of a `FeeSummary`. -/
def FeeSummary.model_dump_json (r : FeeSummary) : List (String × J) :=
  [("id", .int r.id),
   ("uuid", .str r.uuid),
   ("billing_entity_uuid", .str r.billing_entity_uuid),
   ("billing_date", .str (dateStr r.billing_date)),
   ("fee_category", .str r.fee_category),
   ("fee_code", .str r.fee_code),
   ("currency", .str r.currency),
   ("total_period_units", .str (decStr r.total_period_units)),
   ("abs_period_units", .str (decStr r.abs_period_units)),
   ("total_basis_amount", .str (decStr r.total_basis_amount)),
   ("abs_basis_amount", .str (decStr r.abs_basis_amount)),
   ("total_fee_amount", .str (decStr r.total_fee_amount)),
   ("fee_rate_uuid", .str r.fee_rate_uuid),
   ("request_uuid", .str r.request_uuid),
   ("invoice_info_uuid", optJ .str r.invoice_info_uuid),
   ("fee_code_ledger_account_uuid", optJ .str r.fee_code_ledger_account_uuid),
   ("credit_ledger_account_uuid", optJ .str r.credit_ledger_account_uuid),
   ("debit_ledger_account_uuid", optJ .str r.debit_ledger_account_uuid),
   ("exclude_from_invoice", .int r.exclude_from_invoice),
   ("created_timestamp", .str (dtIso r.created_timestamp)),
   ("modified_timestamp", .str (dtIso r.modified_timestamp))]

/-- The `settlement` model of `settlement.py`. -/
structure Settlement where
  id : Int
  uuid : String
  settlement_date : Date
  billing_entity_uuid : String
  entity_uuid : String
  alternate_id : Option String
  payable_receivable : PayRec
  currency : String
  total_amount : Dec
  fee_amount : Dec
  tax1_amount : Dec
  tax2_amount : Dec
  tax3_amount : Dec
  tax4_amount : Dec
  lookup_ledger_account_key : String
  gl_code : Option String
  item_code : Option String
  last_invoice_num : Option String
  request_uuid : Option String
  created_timestamp : DateTime
  modified_timestamp : DateTime
deriving DecidableEq, Repr

/-- `MINIMAL_FIELDS` of `MinimalSettlementMixin`, in source order. -/
def Settlement.MINIMAL_FIELDS : List String :=
  ["settlement_date", "payable_receivable", "currency", "total_amount", "fee_amount"]

/-- `model_dump()` of a `Settlement`. -/
def Settlement.model_dump (r : Settlement) : List (String × PyVal) :=
  [("id", .int r.id),
   ("uuid", .str r.uuid),
   ("settlement_date", .date r.settlement_date),
   ("billing_entity_uuid", .str r.billing_entity_uuid),
   ("entity_uuid", .str r.entity_uuid),
   ("alternate_id", optPy .str r.alternate_id),
   ("payable_receivable", .str r.payable_receivable.value),
   ("currency", .str r.currency),
   ("total_amount", .dec r.total_amount),
   ("fee_amount", .dec r.fee_amount),
   ("tax1_amount", .dec r.tax1_amount),
   ("tax2_amount", .dec r.tax2_amount),
   ("tax3_amount", .dec r.tax3_amount),
   ("tax4_amount", .dec r.tax4_amount),
   ("lookup_ledger_account_key", .str r.lookup_ledger_account_key),
   ("gl_code", optPy .str r.gl_code),
   ("item_code", optPy .str r.item_code),
   ("last_invoice_num", optPy .str r.last_invoice_num),
   ("request_uuid", optPy .str r.request_uuid),
   ("created_timestamp", .datetime r.created_timestamp),
   ("modified_timestamp", .datetime r.modified_timestamp)]

/-- `model_dump_json()` of a `Settlement`. -/
def Settlement.model_dump_json (r : Settlement) : List (String × J) :=
  [("id", .int r.id),
   ("uuid", .str r.uuid),
   ("settlement_date", .str (dateStr r.settlement_date)),
   ("billing_entity_uuid", .str r.billing_entity_uuid),
   ("entity_uuid", .str r.entity_uuid),
   ("alternate_id", optJ .str r.alternate_id),
   ("payable_receivable", .str r.payable_receivable.value),
   ("currency", .str r.currency),
   ("total_amount", .str (decStr r.total_amount)),
   ("fee_amount", .str (decStr r.fee_amount)),
   ("tax1_amount", .str (decStr r.tax1_amount)),
   ("tax2_amount", .str (decStr r.tax2_amount)),
   ("tax3_amount", .str (decStr r.tax3_amount)),
   ("tax4_amount", .str (decStr r.tax4_amount)),
   ("lookup_ledger_account_key", .str r.lookup_ledger_account_key),
   ("gl_code", optJ .str r.gl_code),
   ("item_code", optJ .str r.item_code),
   ("last_invoice_num", optJ .str r.last_invoice_num),
   ("request_uuid", optJ .str r.request_uuid),
   ("created_timestamp", .str (dtIso r.created_timestamp)),
   ("modified_timestamp", .str (dtIso r.modified_timestamp))]

/-- Modelled from the spec: `invoice_info.py` is not among the source files
(only its construction site in `main.py` and sibling schemas are).  Fields are
taken from the keyword arguments passed in `create_pydantic_objects` plus the
`modified_timestamp` that every timestamped entity carries (spec §3); per the
spec's data-model section, the timestamps are construction-time defaults when
unset ("server-assigned defaults that were unset on input, e.g., default
timestamps", spec §8), matching the `default_factory=datetime.now` pattern of
every other main-table schema in the repository. -/
structure InvoiceInfo where
  id : Int
  uuid : String
  billing_entity_uuid : String
  entity_uuid : String
  alternate_id : String
  billing_date : Date
  invoice_num : String
  currency : String
  total_amount : Dec
  document_uuid : String
  request_uuid : String
  created_timestamp : DateTime
  modified_timestamp : DateTime
deriving DecidableEq, Repr

/-- Modelled from the spec: the minimal-field set of the missing
`invoice_info.py`, chosen per the spec's stated convention (fewer than eight
fields, excluding identifiers and foreign keys, favoring amount-determining
fields — spec §3). -/
def InvoiceInfo.MINIMAL_FIELDS : List String :=
  ["billing_date", "invoice_num", "currency", "total_amount"]

/-- `model_dump()` of an `InvoiceInfo` (modelled from the spec, keys in the
construction-site order). -/
def InvoiceInfo.model_dump (r : InvoiceInfo) : List (String × PyVal) :=
  [("id", .int r.id),
   ("uuid", .str r.uuid),
   ("billing_entity_uuid", .str r.billing_entity_uuid),
   ("entity_uuid", .str r.entity_uuid),
   ("alternate_id", .str r.alternate_id),
   ("billing_date", .date r.billing_date),
   ("invoice_num", .str r.invoice_num),
   ("currency", .str r.currency),
   ("total_amount", .dec r.total_amount),
   ("document_uuid", .str r.document_uuid),
   ("request_uuid", .str r.request_uuid),
   ("created_timestamp", .datetime r.created_timestamp),
   ("modified_timestamp", .datetime r.modified_timestamp)]

/-- `model_dump_json()` of an `InvoiceInfo` (modelled from the spec). -/
def InvoiceInfo.model_dump_json (r : InvoiceInfo) : List (String × J) :=
  [("id", .int r.id),
   ("uuid", .str r.uuid),
   ("billing_entity_uuid", .str r.billing_entity_uuid),
   ("entity_uuid", .str r.entity_uuid),
   ("alternate_id", .str r.alternate_id),
   ("billing_date", .str (dateStr r.billing_date)),
   ("invoice_num", .str r.invoice_num),
   ("currency", .str r.currency),
   ("total_amount", .str (decStr r.total_amount)),
   ("document_uuid", .str r.document_uuid),
   ("request_uuid", .str r.request_uuid),
   ("created_timestamp", .str (dtIso r.created_timestamp)),
   ("modified_timestamp", .str (dtIso r.modified_timestamp))]

/-- The slice of the pydantic model interface the demo uses: python-mode and
JSON-mode full dumps plus the type-level minimal-field set of the mixin. -/
class PyModel (α : Type) where
  model_dump : α → List (String × PyVal)
  model_dump_json : α → List (String × J)
  minimal_fields : List String

instance : PyModel FeeRate :=
  ⟨FeeRate.model_dump, FeeRate.model_dump_json, FeeRate.MINIMAL_FIELDS⟩

instance : PyModel BillingEntity :=
  ⟨BillingEntity.model_dump, BillingEntity.model_dump_json, BillingEntity.MINIMAL_FIELDS⟩

instance : PyModel FeeSummary :=
  ⟨FeeSummary.model_dump, FeeSummary.model_dump_json, FeeSummary.MINIMAL_FIELDS⟩

instance : PyModel Settlement :=
  ⟨Settlement.model_dump, Settlement.model_dump_json, Settlement.MINIMAL_FIELDS⟩

instance : PyModel InvoiceInfo :=
  ⟨InvoiceInfo.model_dump, InvoiceInfo.model_dump_json, InvoiceInfo.MINIMAL_FIELDS⟩

/-- `to_minimal_dict()` of the per-entity mixins:
`json.loads(self.model_dump_json(include=self.MINIMAL_FIELDS))`, i.e. the
JSON-mode dump restricted to the type's minimal-field set (pydantic keeps
field declaration order, and an unset optional member of the set is emitted
as `null`, not dropped). -/
def to_minimal_dict [PyModel α] (x : α) : List (String × J) :=
  (PyModel.model_dump_json x).filter
    (fun kv => (PyModel.minimal_fields α).contains kv.1)

/-- Node payload held by the graph: the table tag, the minimal mapping, and
the others mapping still in python form (rendering happens at `json.dumps`). -/
structure NodeData where
  table : String
  minimal : List (String × J)
  others : List (String × PyVal)
deriving DecidableEq, Repr

/-- `create_node_data` of `main.py`: full dump and minimal projection, with
`others` holding exactly the full-dump entries whose key is not a key of the
minimal mapping. -/
def create_node_data [PyModel α] (pydantic_obj : α) (table_name : String) : NodeData :=
  let full_dict := PyModel.model_dump pydantic_obj
  let minimal_dict := to_minimal_dict pydantic_obj
  { table := table_name
    minimal := minimal_dict
    others := full_dict.filter (fun kv => (minimal_dict.lookup kv.1).isNone) }

/-- A networkx `DiGraph` restricted to what the demo uses: nodes in insertion
order with their attribute payload (`none` for a node silently created by
`add_edge`), and per-node successor lists in insertion order. -/
structure DiGraph where
  nodes : List (String × Option NodeData)
  adj : List (String × List String)
deriving DecidableEq, Repr

/-- `nx.DiGraph()`. -/
def DiGraph.empty : DiGraph := ⟨[], []⟩

/-- Whether a node identifier is already present. -/
def DiGraph.hasNode (G : DiGraph) (u : String) : Bool :=
  (G.nodes.lookup u).isSome

/-- `G.add_node(u, **data)`: appends a fresh node or overwrites the payload
of an existing one, keeping insertion order. -/
def DiGraph.add_node (G : DiGraph) (u : String) (d : NodeData) : DiGraph :=
  if G.hasNode u then
    { G with nodes := G.nodes.map (fun p => if p.1 = u then (u, some d) else p) }
  else
    { nodes := G.nodes ++ [(u, some d)], adj := G.adj ++ [(u, [])] }

/-- Internal step of `add_edge`: make sure an endpoint exists, creating it
with no payload when missing (networkx's behaviour). -/
def DiGraph.touch (G : DiGraph) (u : String) : DiGraph :=
  if G.hasNode u then G
  else { nodes := G.nodes ++ [(u, none)], adj := G.adj ++ [(u, [])] }

/-- `G.add_edge(u, v)`: creates missing endpoints, then appends `v` to the
successor list of `u` unless already present. -/
def DiGraph.add_edge (G : DiGraph) (u v : String) : DiGraph :=
  let G := (G.touch u).touch v
  { G with
    adj := G.adj.map (fun p =>
      if p.1 = u then (u, if p.2.contains v then p.2 else p.2 ++ [v]) else p) }

/-- `G.add_edges_from(pairs)`. -/
def DiGraph.add_edges_from (G : DiGraph) (es : List (String × String)) : DiGraph :=
  es.foldl (fun g e => g.add_edge e.1 e.2) G

/-- `G.edges()`: edge pairs as networkx iterates them — grouped by source
node in node insertion order, successors in insertion order. -/
def DiGraph.edges (G : DiGraph) : List (String × String) :=
  (G.adj.map (fun p => p.2.map (fun v => (p.1, v)))).flatten

/-- A date literal. -/
def dOn (y mo d : Nat) : Date := ⟨y, mo, d⟩

/-- A datetime literal. -/
def dtOn (y mo d h mi s us : Nat) : DateTime := ⟨⟨y, mo, d⟩, h, mi, s, us⟩

/-- The dictionary returned by `create_pydantic_objects` in `main.py`. -/
structure DemoObjects where
  merchant_billing_entity : BillingEntity
  clover_billing_entity : BillingEntity
  us_support_billing_entity : BillingEntity
  invoice_info : InvoiceInfo
  fee_rate_1 : FeeRate
  fee_rate_2 : FeeRate
  fee_rate_3 : FeeRate
  fee_rate_4 : FeeRate
  fee_rate_5 : FeeRate
  fee_rate_6 : FeeRate
  fee_summary_1 : FeeSummary
  fee_summary_2 : FeeSummary
  fee_summary_3 : FeeSummary
  fee_summary_4 : FeeSummary
  fee_summary_5 : FeeSummary
  fee_summary_6 : FeeSummary
  settlement_1 : Settlement
  settlement_2 : Settlement
  settlement_3 : Settlement
  settlement_4 : Settlement
deriving DecidableEq, Repr

/-- `create_pydantic_objects` of `main.py`, with every literal keyword
argument transcribed.  Every constructor call passes explicit timestamps
except the `InvoiceInfo`, whose `modified_timestamp` is omitted in the source
and therefore filled by its construction-time default (the clock reading
`now` — see the `InvoiceInfo` doc comment). -/
def create_pydantic_objects (now : DateTime) : DemoObjects where
  merchant_billing_entity :=
    { id := 1195, uuid := "JW8H2B9BT6B11R2HHXY3HYQCN6", entity_uuid := "062X8PVY3XWB1"
      entity_type := .MERCHANT, name := some "MerchantMcMerchantface"
      created_timestamp := dtOn 2025 2 26 17 6 39 670150
      modified_timestamp := dtOn 2025 2 26 17 6 39 670150 }
  clover_billing_entity :=
    { id := 1, uuid := "M4JT4XQCPWPMW7WGA4G1Z5NGED", entity_uuid := "S7VJZXH057ZHC"
      entity_type := .RESELLER, name := some "Clover"
      created_timestamp := dtOn 2025 1 30 16 37 56 379038
      modified_timestamp := dtOn 2025 1 30 16 37 56 379038 }
  us_support_billing_entity :=
    { id := 3, uuid := "8E7KTPHJRBHP16EQB5RS2P8D0Q", entity_uuid := "V9Z9C6EX72SY2"
      entity_type := .RESELLER, name := some "US Customer Support"
      created_timestamp := dtOn 2025 1 30 16 37 56 379038
      modified_timestamp := dtOn 2025 1 30 16 37 56 379038 }
  invoice_info :=
    { id := 6200, uuid := "NFX80F4EH68BEW08384RX7RBMC"
      billing_entity_uuid := "JW8H2B9BT6B11R2HHXY3HYQCN6", entity_uuid := "062X8PVY3XWB1"
      alternate_id := "209225173886", billing_date := dOn 2025 6 1
      invoice_num := "202506/000006200", currency := "USD"
      total_amount := ⟨25883, 2⟩
      document_uuid := "RED0GSNS27W2XG1FQ25VVFEEXH", request_uuid := "CW6456TXW4N934RVY27G5E5CDB"
      created_timestamp := dtOn 2025 6 2 15 6 43 378289
      modified_timestamp := now }
  fee_rate_1 :=
    { id := 267888, uuid := "J65DRB7XHQQ1RTYJSBSTQQBW7K"
      billing_entity_uuid := "M4JT4XQCPWPMW7WGA4G1Z5NGED"
      fee_category := "APP_SUB_3P_RETAIL", fee_code := "MW63DAWPN6JGY.S", currency := "USD"
      effective_date := dOn 2017 2 15, apply_type := .PER_ITEM
      per_item_amount := some ⟨999, 2⟩, percentage := none
      created_timestamp := dtOn 2025 2 25 19 36 38 626269
      modified_timestamp := dtOn 2025 2 25 19 36 38 626269, audit_id := none }
  fee_rate_2 :=
    { id := 272274, uuid := "82G1K56V4V17DXXQHGMR3C328W"
      billing_entity_uuid := "M4JT4XQCPWPMW7WGA4G1Z5NGED"
      fee_category := "APP_SUB_3P_RETAIL", fee_code := "E2ATEB4GHYFCE.S", currency := "USD"
      effective_date := dOn 2016 2 9, apply_type := .PER_ITEM
      per_item_amount := some ⟨5999, 2⟩, percentage := none
      created_timestamp := dtOn 2025 2 25 19 41 8 122154
      modified_timestamp := dtOn 2025 2 25 19 41 8 122154, audit_id := none }
  fee_rate_3 :=
    { id := 244655, uuid := "VWH1Q0V9SS6FNRD48BYZB9YA9A"
      billing_entity_uuid := "M4JT4XQCPWPMW7WGA4G1Z5NGED"
      fee_category := "APP_SUB_3P_RETAIL", fee_code := "BCMPKE5Z10A38.S", currency := "USD"
      effective_date := dOn 2017 2 17, apply_type := .PER_ITEM
      per_item_amount := some ⟨99, 0⟩, percentage := none
      created_timestamp := dtOn 2025 2 25 19 5 31 108052
      modified_timestamp := dtOn 2025 2 25 19 5 31 108052, audit_id := none }
  fee_rate_4 :=
    { id := 173, uuid := "2G767D60KKG18208768S4C1HM8"
      billing_entity_uuid := "8E7KTPHJRBHP16EQB5RS2P8D0Q"
      fee_category := "DEVICE_RETAIL", fee_code := "RegisterPDVT", currency := "USD"
      effective_date := dOn 2025 1 1, apply_type := .PER_ITEM
      per_item_amount := some ⟨1995, 2⟩, percentage := none
      created_timestamp := dtOn 2025 1 30 16 38 2 379723
      modified_timestamp := dtOn 2025 1 30 16 38 33 706835, audit_id := some "STEKRDE0YS244" }
  fee_rate_5 :=
    { id := 193, uuid := "KG9ABT30FRKVX39VRV82CBDKJF"
      billing_entity_uuid := "8E7KTPHJRBHP16EQB5RS2P8D0Q"
      fee_category := "DEVICE_RETAIL_MOD", fee_code := "RegisterPDVTIncl1st", currency := "USD"
      effective_date := dOn 2025 1 1, apply_type := .PER_ITEM
      per_item_amount := some ⟨-1995, 2⟩, percentage := none
      created_timestamp := dtOn 2025 1 30 16 38 2 480183
      modified_timestamp := dtOn 2025 1 30 16 38 33 706835, audit_id := some "STEKRDE0YS244" }
  fee_rate_6 :=
    { id := 169, uuid := "DF6FE39FRQHVXJKVVN9WTDSGWX"
      billing_entity_uuid := "8E7KTPHJRBHP16EQB5RS2P8D0Q"
      fee_category := "PLAN_RETAIL", fee_code := "RegisterPDVT", currency := "USD"
      effective_date := dOn 2025 1 1, apply_type := .PER_ITEM
      per_item_amount := some ⟨4995, 2⟩, percentage := none
      created_timestamp := dtOn 2025 1 30 16 38 2 359401
      modified_timestamp := dtOn 2025 1 30 16 38 33 706835, audit_id := some "STEKRDE0YS244" }
  fee_summary_1 :=
    { id := 74347, uuid := "K576N1W35XYEVW7VH1JVDY1XRT"
      billing_entity_uuid := "JW8H2B9BT6B11R2HHXY3HYQCN6", billing_date := dOn 2025 6 1
      fee_category := "APP_SUB_3P_RETAIL", fee_code := "MW63DAWPN6JGY.S", currency := "USD"
      total_period_units := ⟨1, 0⟩, abs_period_units := ⟨1, 0⟩
      total_basis_amount := ⟨0, 0⟩, abs_basis_amount := ⟨0, 0⟩
      total_fee_amount := ⟨999, 2⟩
      fee_rate_uuid := "J65DRB7XHQQ1RTYJSBSTQQBW7K", request_uuid := "KNFZA2P2E2KMGKMATSY1RSD8TY"
      invoice_info_uuid := some "NFX80F4EH68BEW08384RX7RBMC"
      fee_code_ledger_account_uuid := some "DMW4K1XGB16DAEQ2ZRSJACE1WS"
      credit_ledger_account_uuid := some "KBERX62EJMWD8KEVFZRX0H875Z"
      debit_ledger_account_uuid := some "5XNJ7KBDBGNKVRFZYMCZJ6G5E7"
      exclude_from_invoice := 0
      created_timestamp := dtOn 2025 6 2 14 56 15 960436
      modified_timestamp := dtOn 2025 6 2 15 6 43 387646 }
  fee_summary_2 :=
    { id := 74345, uuid := "4FM5SS3WW7WT7GZZWFMSS9YQP6"
      billing_entity_uuid := "JW8H2B9BT6B11R2HHXY3HYQCN6", billing_date := dOn 2025 6 1
      fee_category := "APP_SUB_3P_RETAIL", fee_code := "E2ATEB4GHYFCE.S", currency := "USD"
      total_period_units := ⟨1, 0⟩, abs_period_units := ⟨1, 0⟩
      total_basis_amount := ⟨0, 0⟩, abs_basis_amount := ⟨0, 0⟩
      total_fee_amount := ⟨5999, 2⟩
      fee_rate_uuid := "82G1K56V4V17DXXQHGMR3C328W", request_uuid := "KNFZA2P2E2KMGKMATSY1RSD8TY"
      invoice_info_uuid := some "NFX80F4EH68BEW08384RX7RBMC"
      fee_code_ledger_account_uuid := some "2V1BQ7YMC6PJXESE3YA57EW31Q"
      credit_ledger_account_uuid := some "15WVBBCPN56BD7EGE5STR2R1EW"
      debit_ledger_account_uuid := some "2MV95DFMWYJ1KZZBGS3HX8F9XN"
      exclude_from_invoice := 0
      created_timestamp := dtOn 2025 6 2 14 56 15 949495
      modified_timestamp := dtOn 2025 6 2 15 6 43 387646 }
  fee_summary_3 :=
    { id := 74341, uuid := "MH2Q9759T1FKMP887PMRQFMV9R"
      billing_entity_uuid := "JW8H2B9BT6B11R2HHXY3HYQCN6", billing_date := dOn 2025 6 1
      fee_category := "APP_SUB_3P_RETAIL", fee_code := "BCMPKE5Z10A38.S", currency := "USD"
      total_period_units := ⟨1, 0⟩, abs_period_units := ⟨1, 0⟩
      total_basis_amount := ⟨0, 0⟩, abs_basis_amount := ⟨0, 0⟩
      total_fee_amount := ⟨99, 0⟩
      fee_rate_uuid := "VWH1Q0V9SS6FNRD48BYZB9YA9A", request_uuid := "KNFZA2P2E2KMGKMATSY1RSD8TY"
      invoice_info_uuid := some "NFX80F4EH68BEW08384RX7RBMC"
      fee_code_ledger_account_uuid := some "AHZXC23GACNTQNYCX9S14PG914"
      credit_ledger_account_uuid := some "7FQZ30FPEWWM5MV65RY0ZB5D3G"
      debit_ledger_account_uuid := some "9X9TF60JDBMZQ7A0FHHK7E14W3"
      exclude_from_invoice := 0
      created_timestamp := dtOn 2025 6 2 14 56 15 922833
      modified_timestamp := dtOn 2025 6 2 15 6 43 387646 }
  fee_summary_4 :=
    { id := 74349, uuid := "VC74T4AJ9R5X148DSRS95R5PF3"
      billing_entity_uuid := "JW8H2B9BT6B11R2HHXY3HYQCN6", billing_date := dOn 2025 6 1
      fee_category := "DEVICE_RETAIL", fee_code := "RegisterPDVT", currency := "USD"
      total_period_units := ⟨3, 0⟩, abs_period_units := ⟨3, 0⟩
      total_basis_amount := ⟨0, 0⟩, abs_basis_amount := ⟨0, 0⟩
      total_fee_amount := ⟨5985, 2⟩
      fee_rate_uuid := "2G767D60KKG18208768S4C1HM8", request_uuid := "KNFZA2P2E2KMGKMATSY1RSD8TY"
      invoice_info_uuid := some "NFX80F4EH68BEW08384RX7RBMC"
      fee_code_ledger_account_uuid := some "JZ4Q82HKC14JDAE8YYZZYWKB0X"
      credit_ledger_account_uuid := some "HSMJRPH5WVCCV4WKW04CX6ZJG5"
      debit_ledger_account_uuid := some "62PXBE9JK6QXA65WHY3G5G0K01"
      exclude_from_invoice := 0
      created_timestamp := dtOn 2025 6 2 14 56 15 973521
      modified_timestamp := dtOn 2025 6 2 15 6 43 387646 }
  fee_summary_5 :=
    { id := 74350, uuid := "9VEDCKTVN2PTAYAQ8TCQV3ZNGZ"
      billing_entity_uuid := "JW8H2B9BT6B11R2HHXY3HYQCN6", billing_date := dOn 2025 6 1
      fee_category := "DEVICE_RETAIL_MOD", fee_code := "RegisterPDVTIncl1st", currency := "USD"
      total_period_units := ⟨1, 0⟩, abs_period_units := ⟨1, 0⟩
      total_basis_amount := ⟨0, 0⟩, abs_basis_amount := ⟨0, 0⟩
      total_fee_amount := ⟨-1995, 2⟩
      fee_rate_uuid := "KG9ABT30FRKVX39VRV82CBDKJF", request_uuid := "KNFZA2P2E2KMGKMATSY1RSD8TY"
      invoice_info_uuid := some "NFX80F4EH68BEW08384RX7RBMC"
      fee_code_ledger_account_uuid := some "H1HH56GWY4VWTDP6VQ3977EKNG"
      credit_ledger_account_uuid := some "2SNQPEXR2T0PX6Y36NWQSRZNRJ"
      debit_ledger_account_uuid := some "62PXBE9JK6QXA65WHY3G5G0K01"
      exclude_from_invoice := 0
      created_timestamp := dtOn 2025 6 2 14 56 15 979936
      modified_timestamp := dtOn 2025 6 2 15 6 43 387646 }
  fee_summary_6 :=
    { id := 74351, uuid := "FD7GD3YK93ZZS4C1DA6C7W9AER"
      billing_entity_uuid := "JW8H2B9BT6B11R2HHXY3HYQCN6", billing_date := dOn 2025 6 1
      fee_category := "PLAN_RETAIL", fee_code := "RegisterPDVT", currency := "USD"
      total_period_units := ⟨1, 0⟩, abs_period_units := ⟨1, 0⟩
      total_basis_amount := ⟨0, 0⟩, abs_basis_amount := ⟨0, 0⟩
      total_fee_amount := ⟨4995, 2⟩
      fee_rate_uuid := "DF6FE39FRQHVXJKVVN9WTDSGWX", request_uuid := "KNFZA2P2E2KMGKMATSY1RSD8TY"
      invoice_info_uuid := some "NFX80F4EH68BEW08384RX7RBMC"
      fee_code_ledger_account_uuid := some "GCCQKS6H40NBQKS6KC4F31WAZY"
      credit_ledger_account_uuid := some "HSMJRPH5WVCCV4WKW04CX6ZJG5"
      debit_ledger_account_uuid := some "62PXBE9JK6QXA65WHY3G5G0K01"
      exclude_from_invoice := 0
      created_timestamp := dtOn 2025 6 2 14 56 15 987500
      modified_timestamp := dtOn 2025 6 2 15 6 43 387646 }
  settlement_1 :=
    { id := 6256, uuid := "NH8V7V2V0CQ0BWCTGVN6QBV753", settlement_date := dOn 2025 6 1
      billing_entity_uuid := "JW8H2B9BT6B11R2HHXY3HYQCN6", entity_uuid := "062X8PVY3XWB1"
      alternate_id := some "209225173886", payable_receivable := .RECEIVABLE, currency := "USD"
      total_amount := ⟨999, 2⟩, fee_amount := ⟨999, 2⟩
      tax1_amount := ⟨0, 0⟩, tax2_amount := ⟨0, 0⟩, tax3_amount := ⟨0, 0⟩, tax4_amount := ⟨0, 0⟩
      lookup_ledger_account_key := "Incur.App.E8HJHPCT8AR08", gl_code := none
      item_code := some "E8HJHPCT8AR08", last_invoice_num := some "202506/000006200"
      request_uuid := some "CQ95HJ649AXSDG6RF4Z71Z8ATD"
      created_timestamp := dtOn 2025 6 2 16 9 51 666639
      modified_timestamp := dtOn 2025 6 2 16 9 52 0 }
  settlement_2 :=
    { id := 6255, uuid := "GGG15XMEK13KN6ARGV2F5EXMKT", settlement_date := dOn 2025 6 1
      billing_entity_uuid := "JW8H2B9BT6B11R2HHXY3HYQCN6", entity_uuid := "062X8PVY3XWB1"
      alternate_id := some "209225173886", payable_receivable := .RECEIVABLE, currency := "USD"
      total_amount := ⟨5999, 2⟩, fee_amount := ⟨5999, 2⟩
      tax1_amount := ⟨0, 0⟩, tax2_amount := ⟨0, 0⟩, tax3_amount := ⟨0, 0⟩, tax4_amount := ⟨0, 0⟩
      lookup_ledger_account_key := "Incur.App.38NB0ETSWWP6C", gl_code := none
      item_code := some "38NB0ETSWWP6C", last_invoice_num := some "202506/000006200"
      request_uuid := some "CQ95HJ649AXSDG6RF4Z71Z8ATD"
      created_timestamp := dtOn 2025 6 2 16 9 51 641654
      modified_timestamp := dtOn 2025 6 2 16 9 52 0 }
  settlement_3 :=
    { id := 6257, uuid := "8FNKVQ3SSHT2N7AVW3KH8DS00R", settlement_date := dOn 2025 6 1
      billing_entity_uuid := "JW8H2B9BT6B11R2HHXY3HYQCN6", entity_uuid := "062X8PVY3XWB1"
      alternate_id := some "209225173886", payable_receivable := .RECEIVABLE, currency := "USD"
      total_amount := ⟨99, 0⟩, fee_amount := ⟨99, 0⟩
      tax1_amount := ⟨0, 0⟩, tax2_amount := ⟨0, 0⟩, tax3_amount := ⟨0, 0⟩, tax4_amount := ⟨0, 0⟩
      lookup_ledger_account_key := "Incur.App.VX7BFWEXXQ1CW", gl_code := some "51501"
      item_code := some "VX7BFWEXXQ1CW", last_invoice_num := some "202506/000006200"
      request_uuid := some "CQ95HJ649AXSDG6RF4Z71Z8ATD"
      created_timestamp := dtOn 2025 6 2 16 9 51 683242
      modified_timestamp := dtOn 2025 6 2 16 9 52 0 }
  settlement_4 :=
    { id := 6258, uuid := "VS6EVR8GK3AWAKV8SAK4HJFC77", settlement_date := dOn 2025 6 1
      billing_entity_uuid := "JW8H2B9BT6B11R2HHXY3HYQCN6", entity_uuid := "062X8PVY3XWB1"
      alternate_id := some "209225173886", payable_receivable := .RECEIVABLE, currency := "USD"
      total_amount := ⟨8985, 2⟩, fee_amount := ⟨8985, 2⟩
      tax1_amount := ⟨0, 0⟩, tax2_amount := ⟨0, 0⟩, tax3_amount := ⟨0, 0⟩, tax4_amount := ⟨0, 0⟩
      lookup_ledger_account_key := "Incur.Plan", gl_code := some "51505"
      item_code := some "V20071.0000", last_invoice_num := some "202506/000006200"
      request_uuid := some "CQ95HJ649AXSDG6RF4Z71Z8ATD"
      created_timestamp := dtOn 2025 6 2 16 9 51 700076
      modified_timestamp := dtOn 2025 6 2 16 9 52 0 }

/-- `create_graph` of `main.py`: all twenty nodes in source order, then the
edge declarations in source order. -/
def create_graph (now : DateTime) : DiGraph :=
  let G := DiGraph.empty
  let data := create_pydantic_objects now
  let G := G.add_node "billing_entity_merchant" (create_node_data data.merchant_billing_entity "billing_entity")
  let G := G.add_node "billing_entity_clover" (create_node_data data.clover_billing_entity "billing_entity")
  let G := G.add_node "billing_entity_us_support" (create_node_data data.us_support_billing_entity "billing_entity")
  let G := G.add_node "invoice_info_1" (create_node_data data.invoice_info "invoice_info")
  let G := G.add_node "fee_rate_1" (create_node_data data.fee_rate_1 "fee_rate")
  let G := G.add_node "fee_rate_2" (create_node_data data.fee_rate_2 "fee_rate")
  let G := G.add_node "fee_rate_3" (create_node_data data.fee_rate_3 "fee_rate")
  let G := G.add_node "fee_rate_4" (create_node_data data.fee_rate_4 "fee_rate")
  let G := G.add_node "fee_rate_5" (create_node_data data.fee_rate_5 "fee_rate")
  let G := G.add_node "fee_rate_6" (create_node_data data.fee_rate_6 "fee_rate")
  let G := G.add_node "fee_summary_1" (create_node_data data.fee_summary_1 "fee_summary")
  let G := G.add_node "fee_summary_2" (create_node_data data.fee_summary_2 "fee_summary")
  let G := G.add_node "fee_summary_3" (create_node_data data.fee_summary_3 "fee_summary")
  let G := G.add_node "fee_summary_4" (create_node_data data.fee_summary_4 "fee_summary")
  let G := G.add_node "fee_summary_5" (create_node_data data.fee_summary_5 "fee_summary")
  let G := G.add_node "fee_summary_6" (create_node_data data.fee_summary_6 "fee_summary")
  let G := G.add_node "settlement_1" (create_node_data data.settlement_1 "settlement")
  let G := G.add_node "settlement_2" (create_node_data data.settlement_2 "settlement")
  let G := G.add_node "settlement_3" (create_node_data data.settlement_3 "settlement")
  let G := G.add_node "settlement_4" (create_node_data data.settlement_4 "settlement")
  let G := G.add_edge "billing_entity_merchant" "invoice_info_1"
  let G := G.add_edges_from
    [("invoice_info_1", "fee_rate_1"),
     ("invoice_info_1", "fee_rate_2"),
     ("invoice_info_1", "fee_rate_3"),
     ("invoice_info_1", "fee_rate_4"),
     ("invoice_info_1", "fee_rate_5"),
     ("invoice_info_1", "fee_rate_6")]
  let G := G.add_edges_from
    [("fee_rate_1", "fee_summary_1"),
     ("fee_rate_2", "fee_summary_2"),
     ("fee_rate_3", "fee_summary_3"),
     ("fee_rate_4", "fee_summary_4"),
     ("fee_rate_5", "fee_summary_5"),
     ("fee_rate_6", "fee_summary_6")]
  let G := G.add_edges_from
    [("fee_summary_1", "settlement_1"),
     ("fee_summary_2", "settlement_2"),
     ("fee_summary_3", "settlement_3"),
     ("fee_summary_4", "settlement_4"),
     ("fee_summary_5", "settlement_4"),
     ("fee_summary_6", "settlement_4")]
  let G := G.add_edges_from
    [("settlement_1", "billing_entity_clover"),
     ("settlement_1", "billing_entity_us_support"),
     ("settlement_2", "billing_entity_clover"),
     ("settlement_2", "billing_entity_us_support"),
     ("settlement_3", "billing_entity_clover"),
     ("settlement_3", "billing_entity_us_support"),
     ("settlement_4", "billing_entity_clover"),
     ("settlement_4", "billing_entity_us_support")]
  G

/-- A JSON document tree, as `json.dumps` sees it. -/
inductive Jx where
  | null
  | int (n : Int)
  | str (s : String)
  | arr (xs : List Jx)
  | obj (fields : List (String × Jx))

/-- Lift a flat value into the tree. -/
def J.toJx : J → Jx
  | .null => .null
  | .int n => .int n
  | .str s => .str s

/-- One entry of the serialized node list: `{"id": ..}` merged with the node
attribute mapping; the `others` values go through `default=str` here. -/
def nodeEntry : String × Option NodeData → Jx
  | (nid, none) => .obj [("id", .str nid)]
  | (nid, some d) =>
      .obj [("id", .str nid),
            ("table", .str d.table),
            ("minimal", .obj (d.minimal.map (fun kv => (kv.1, kv.2.toJx)))),
            ("others", .obj (d.others.map (fun kv => (kv.1, (pyToJ kv.2).toJx))))]

/-- `serialize_graph` of `main.py`: the two-key document, nodes then edges. -/
def serialize_graph (G : DiGraph) : Jx :=
  .obj [("nodes", .arr (G.nodes.map nodeEntry)),
        ("edges", .arr (G.edges.map (fun e =>
          .obj [("source", .str e.1), ("target", .str e.2)])))]

/-- A line printed by the CLI: either the serialized document or a plain
message. -/
inductive OutLine where
  | doc (j : Jx)
  | msg (s : String)

/-- `main` of `main.py`, over the outcome of the construct-and-serialize
pipeline (an exception anywhere in it is the `error` case): on success the
document is printed and 0 returned; on failure the single line
`Error: ...` is printed and 1 returned.  The spec-modelled console-script
wrapper passes this return value to the process exit. -/
def main (pipeline : Except String Jx) : List OutLine × Nat :=
  match pipeline with
  | .ok serialized_graph => ([.doc serialized_graph], 0)
  | .error e => ([.msg ("Error: " ++ e)], 1)

/-- The demo's actual pipeline outcome: the fixed literals construct and
serialize without raising. -/
def demo_pipeline (now : DateTime) : Except String Jx :=
  .ok (serialize_graph (create_graph now))

/-! ### Replay view of the graph construction

`create_graph` is a chain of `add_node` and `add_edge` calls; to reason about
the result we record the calls as data and characterize the chain as a fold,
which keeps intermediate graphs in evaluated form. -/

/-- One graph-building call. -/
inductive GOp where
  | node (u : String) (d : NodeData)
  | edge (u v : String)

/-- Replay a list of graph-building calls. -/
def applyOps (G : DiGraph) : List GOp → DiGraph
  | [] => G
  | .node u d :: rest => applyOps (G.add_node u d) rest
  | .edge u v :: rest => applyOps (G.add_edge u v) rest

/-- One graph-building call as a step on the raw node and adjacency lists. -/
def gstep (s : List (String × Option NodeData) × List (String × List String)) :
    GOp → List (String × Option NodeData) × List (String × List String)
  | .node u d =>
    if (s.1.lookup u).isSome then
      (s.1.map (fun p => if p.1 = u then (u, some d) else p), s.2)
    else (s.1 ++ [(u, some d)], s.2 ++ [(u, [])])
  | .edge u v =>
    let t := if (s.1.lookup u).isSome then s else (s.1 ++ [(u, none)], s.2 ++ [(u, [])])
    let t2 := if (t.1.lookup v).isSome then t else (t.1 ++ [(v, none)], t.2 ++ [(v, [])])
    (t2.1, t2.2.map (fun p =>
      if p.1 = u then (u, if p.2.contains v then p.2 else p.2 ++ [v]) else p))

/-- Node payload of the merchant billing entity. -/
def nd_merchant (now : DateTime) : NodeData :=
  create_node_data (create_pydantic_objects now).merchant_billing_entity "billing_entity"

/-- Node payload of the Clover billing entity. -/
def nd_clover (now : DateTime) : NodeData :=
  create_node_data (create_pydantic_objects now).clover_billing_entity "billing_entity"

/-- Node payload of the US-support billing entity. -/
def nd_us_support (now : DateTime) : NodeData :=
  create_node_data (create_pydantic_objects now).us_support_billing_entity "billing_entity"

/-- Node payload of the invoice. -/
def nd_invoice (now : DateTime) : NodeData :=
  create_node_data (create_pydantic_objects now).invoice_info "invoice_info"

/-- Node payload of fee rate `i` (1 to 6). -/
def nd_fee_rate (now : DateTime) : Nat → NodeData
  | 1 => create_node_data (create_pydantic_objects now).fee_rate_1 "fee_rate"
  | 2 => create_node_data (create_pydantic_objects now).fee_rate_2 "fee_rate"
  | 3 => create_node_data (create_pydantic_objects now).fee_rate_3 "fee_rate"
  | 4 => create_node_data (create_pydantic_objects now).fee_rate_4 "fee_rate"
  | 5 => create_node_data (create_pydantic_objects now).fee_rate_5 "fee_rate"
  | _ => create_node_data (create_pydantic_objects now).fee_rate_6 "fee_rate"

/-- Node payload of fee summary `i` (1 to 6). -/
def nd_fee_summary (now : DateTime) : Nat → NodeData
  | 1 => create_node_data (create_pydantic_objects now).fee_summary_1 "fee_summary"
  | 2 => create_node_data (create_pydantic_objects now).fee_summary_2 "fee_summary"
  | 3 => create_node_data (create_pydantic_objects now).fee_summary_3 "fee_summary"
  | 4 => create_node_data (create_pydantic_objects now).fee_summary_4 "fee_summary"
  | 5 => create_node_data (create_pydantic_objects now).fee_summary_5 "fee_summary"
  | _ => create_node_data (create_pydantic_objects now).fee_summary_6 "fee_summary"

/-- Node payload of settlement `i` (1 to 4). -/
def nd_settlement (now : DateTime) : Nat → NodeData
  | 1 => create_node_data (create_pydantic_objects now).settlement_1 "settlement"
  | 2 => create_node_data (create_pydantic_objects now).settlement_2 "settlement"
  | 3 => create_node_data (create_pydantic_objects now).settlement_3 "settlement"
  | _ => create_node_data (create_pydantic_objects now).settlement_4 "settlement"

/-- The graph-building calls of `create_graph`, in source order: twenty
`add_node` calls, then the twenty-seven `add_edge` calls. -/
def demo_ops (now : DateTime) : List GOp :=
  [.node "billing_entity_merchant" (nd_merchant now),
   .node "billing_entity_clover" (nd_clover now),
   .node "billing_entity_us_support" (nd_us_support now),
   .node "invoice_info_1" (nd_invoice now),
   .node "fee_rate_1" (nd_fee_rate now 1),
   .node "fee_rate_2" (nd_fee_rate now 2),
   .node "fee_rate_3" (nd_fee_rate now 3),
   .node "fee_rate_4" (nd_fee_rate now 4),
   .node "fee_rate_5" (nd_fee_rate now 5),
   .node "fee_rate_6" (nd_fee_rate now 6),
   .node "fee_summary_1" (nd_fee_summary now 1),
   .node "fee_summary_2" (nd_fee_summary now 2),
   .node "fee_summary_3" (nd_fee_summary now 3),
   .node "fee_summary_4" (nd_fee_summary now 4),
   .node "fee_summary_5" (nd_fee_summary now 5),
   .node "fee_summary_6" (nd_fee_summary now 6),
   .node "settlement_1" (nd_settlement now 1),
   .node "settlement_2" (nd_settlement now 2),
   .node "settlement_3" (nd_settlement now 3),
   .node "settlement_4" (nd_settlement now 4),
   .edge "billing_entity_merchant" "invoice_info_1",
   .edge "invoice_info_1" "fee_rate_1",
   .edge "invoice_info_1" "fee_rate_2",
   .edge "invoice_info_1" "fee_rate_3",
   .edge "invoice_info_1" "fee_rate_4",
   .edge "invoice_info_1" "fee_rate_5",
   .edge "invoice_info_1" "fee_rate_6",
   .edge "fee_rate_1" "fee_summary_1",
   .edge "fee_rate_2" "fee_summary_2",
   .edge "fee_rate_3" "fee_summary_3",
   .edge "fee_rate_4" "fee_summary_4",
   .edge "fee_rate_5" "fee_summary_5",
   .edge "fee_rate_6" "fee_summary_6",
   .edge "fee_summary_1" "settlement_1",
   .edge "fee_summary_2" "settlement_2",
   .edge "fee_summary_3" "settlement_3",
   .edge "fee_summary_4" "settlement_4",
   .edge "fee_summary_5" "settlement_4",
   .edge "fee_summary_6" "settlement_4",
   .edge "settlement_1" "billing_entity_clover",
   .edge "settlement_1" "billing_entity_us_support",
   .edge "settlement_2" "billing_entity_clover",
   .edge "settlement_2" "billing_entity_us_support",
   .edge "settlement_3" "billing_entity_clover",
   .edge "settlement_3" "billing_entity_us_support",
   .edge "settlement_4" "billing_entity_clover",
   .edge "settlement_4" "billing_entity_us_support"]

/-! ### Extraction helpers on documents -/

/-- Keys of a JSON object (empty for other values). -/
def Jx.keys : Jx → List String
  | .obj fs => fs.map Prod.fst
  | _ => []

/-- Member of a JSON object by key. -/
def Jx.get (doc : Jx) (k : String) : Option Jx :=
  match doc with
  | .obj fs => fs.lookup k
  | _ => none

/-- The node-entry list of a serialized document. -/
def doc_nodes (doc : Jx) : List Jx :=
  match doc.get "nodes" with
  | some (.arr xs) => xs
  | _ => []

/-- The edge-entry list of a serialized document. -/
def doc_edges (doc : Jx) : List Jx :=
  match doc.get "edges" with
  | some (.arr xs) => xs
  | _ => []

/-- The `id` string of a node entry. -/
def entry_id (e : Jx) : Option String :=
  match e.get "id" with
  | some (.str s) => some s
  | _ => none

/-- The source and target strings of an edge entry. -/
def entry_pair (e : Jx) : Option (String × String) :=
  match e.get "source", e.get "target" with
  | some (.str s), some (.str t) => some (s, t)
  | _, _ => none

/-- The string stored in the `others` mapping of a given node under a given
key, if any. -/
def others_str (doc : Jx) (nid k : String) : Option String :=
  match (doc_nodes doc).find? (fun e => entry_id e == some nid) with
  | some e =>
    match e.get "others" with
    | some o =>
      match o.get k with
      | some (.str s) => some s
      | _ => none
    | _ => none
  | _ => none

/-- The string stored in the `minimal` mapping of a given node under a given
key, if any. -/
def minimal_str (doc : Jx) (nid k : String) : Option String :=
  match (doc_nodes doc).find? (fun e => entry_id e == some nid) with
  | some e =>
    match e.get "minimal" with
    | some o =>
      match o.get k with
      | some (.str s) => some s
      | _ => none
    | _ => none
  | _ => none

/-- Rank of a node identifier in the conceptual billing pipeline, used to
witness acyclicity of the sample graph. -/
def node_rank (u : String) : Nat :=
  (([("billing_entity_merchant", 0), ("invoice_info_1", 1),
     ("fee_rate_1", 2), ("fee_rate_2", 2), ("fee_rate_3", 2),
     ("fee_rate_4", 2), ("fee_rate_5", 2), ("fee_rate_6", 2),
     ("fee_summary_1", 3), ("fee_summary_2", 3), ("fee_summary_3", 3),
     ("fee_summary_4", 3), ("fee_summary_5", 3), ("fee_summary_6", 3),
     ("settlement_1", 4), ("settlement_2", 4), ("settlement_3", 4),
     ("settlement_4", 4), ("billing_entity_clover", 5),
     ("billing_entity_us_support", 5)] : List (String × Nat)).lookup u).getD 0

/-- The edge relation of a graph: `u` points to `v`. -/
def edge_of (G : DiGraph) (u v : String) : Prop := (u, v) ∈ G.edges

/-! ### Construction-time validation

Pydantic validates each constructor keyword set before an instance exists.
A raw input has every field optional (a missing keyword is `none`); the
validator checks presence of required fields and the declared constraints,
and fills defaults, mirroring the `Field(...)` declarations. -/

/-- A construction validation failure: the offending field, either missing
or violating its declared constraint. -/
inductive VErr where
  | missing (field : String)
  | invalid (field : String)
deriving DecidableEq, Repr

/-- Presence check for a required field. -/
def require (field : String) : Option α → Except VErr α
  | some a => .ok a
  | none => .error (.missing field)

/-- Constraint check on a present value. -/
def check (field : String) (p : Prop) [Decidable p] : Except VErr Unit :=
  if p then .ok () else .error (.invalid field)

/-- Constraint check on an optional value (vacuous when unset). -/
def checkOpt (field : String) (p : α → Prop) [DecidablePred p] :
    Option α → Except VErr Unit
  | none => .ok ()
  | some a => check field (p a)

/-- Number of digits of a natural number (one digit for zero, as in the
digit tuple of `Decimal`). -/
def numDigits (n : Nat) : Nat := (natChars n).length

/-- Pydantic's `max_digits` and `decimal_places` validation on a decimal:
with exponent `-scale`, the fraction digit count is the scale, the total
digit count is the larger of scale and mantissa digit count, and the whole
digit count may not exceed `max_digits - decimal_places`. -/
def decOk (max_digits decimal_places : Nat) (d : Dec) : Prop :=
  let len := numDigits d.mant.natAbs
  let digits := if d.scale = 0 then len else if d.scale > len then d.scale else len
  let decimals := d.scale
  digits ≤ max_digits ∧ decimals ≤ decimal_places ∧
    digits - decimals ≤ max_digits - decimal_places

instance (md dp : Nat) (d : Dec) : Decidable (decOk md dp d) := by
  unfold decOk; infer_instance

/-- Whether a year is a leap year (Gregorian rule). -/
def is_leap (y : Nat) : Bool := y % 4 = 0 && (y % 100 ≠ 0 || y % 400 = 0)

/-- Days in a month. -/
def days_in_month (y mo : Nat) : Nat :=
  if mo = 2 then (if is_leap y then 29 else 28)
  else if mo = 4 || mo = 6 || mo = 9 || mo = 11 then 30
  else 31

/-- A valid `datetime.date`: the ranges CPython enforces. -/
def dateOk (d : Date) : Prop :=
  1 ≤ d.year ∧ d.year ≤ 9999 ∧ 1 ≤ d.month ∧ d.month ≤ 12 ∧
    1 ≤ d.day ∧ d.day ≤ days_in_month d.year d.month

instance (d : Date) : Decidable (dateOk d) := by
  unfold dateOk; infer_instance

/-- A valid `datetime.datetime`. -/
def dtOk (t : DateTime) : Prop :=
  dateOk t.date ∧ t.hour < 24 ∧ t.minute < 60 ∧ t.second < 60 ∧
    t.microsecond < 1000000

instance (t : DateTime) : Decidable (dtOk t) := by
  unfold dtOk; infer_instance

/-- Raw constructor keywords for `FeeRate`: `none` is an omitted keyword. -/
structure RawFeeRate where
  id : Option Int := none
  uuid : Option String := none
  billing_entity_uuid : Option String := none
  fee_category : Option String := none
  fee_code : Option String := none
  currency : Option String := none
  effective_date : Option Date := none
  apply_type : Option ApplyType := none
  per_item_amount : Option Dec := none
  percentage : Option Dec := none
  created_timestamp : Option DateTime := none
  modified_timestamp : Option DateTime := none
  audit_id : Option String := none
deriving DecidableEq, Repr

/-- Pydantic construction of a `FeeRate` from raw keywords: required fields
must be present, declared constraints hold (`gt=0`, `max_length`,
`max_digits`, `decimal_places`), and the timestamp defaults are the
construction-time clock `now` (`default_factory=datetime.now`). -/
def FeeRate.validate (now : DateTime) (r : RawFeeRate) : Except VErr FeeRate := do
  let idv ← require "id" r.id
  check "id" (0 < idv)
  let uuid ← require "uuid" r.uuid
  check "uuid" (uuid.length ≤ 26)
  let beu ← require "billing_entity_uuid" r.billing_entity_uuid
  check "billing_entity_uuid" (beu.length ≤ 26)
  let cat ← require "fee_category" r.fee_category
  check "fee_category" (cat.length ≤ 25)
  let code ← require "fee_code" r.fee_code
  check "fee_code" (code.length ≤ 25)
  let cur ← require "currency" r.currency
  check "currency" (cur.length ≤ 3)
  let eff ← require "effective_date" r.effective_date
  let app ← require "apply_type" r.apply_type
  checkOpt "per_item_amount" (decOk 12 3) r.per_item_amount
  checkOpt "percentage" (decOk 5 2) r.percentage
  checkOpt "audit_id" (fun s => s.length ≤ 26) r.audit_id
  .ok { id := idv, uuid := uuid, billing_entity_uuid := beu, fee_category := cat
        fee_code := code, currency := cur, effective_date := eff, apply_type := app
        per_item_amount := r.per_item_amount, percentage := r.percentage
        created_timestamp := r.created_timestamp.getD now
        modified_timestamp := r.modified_timestamp.getD now
        audit_id := r.audit_id }

/-- Raw constructor keywords for `BillingEntity`. -/
structure RawBillingEntity where
  id : Option Int := none
  uuid : Option String := none
  entity_uuid : Option String := none
  entity_type : Option EntityType := none
  name : Option String := none
  created_timestamp : Option DateTime := none
  modified_timestamp : Option DateTime := none
deriving DecidableEq, Repr

/-- Pydantic construction of a `BillingEntity` from raw keywords. -/
def BillingEntity.validate (now : DateTime) (r : RawBillingEntity) :
    Except VErr BillingEntity := do
  let idv ← require "id" r.id
  check "id" (0 < idv)
  let uuid ← require "uuid" r.uuid
  check "uuid" (uuid.length ≤ 26)
  let eu ← require "entity_uuid" r.entity_uuid
  check "entity_uuid" (eu.length ≤ 13)
  let et ← require "entity_type" r.entity_type
  checkOpt "name" (fun s => s.length ≤ 127) r.name
  .ok { id := idv, uuid := uuid, entity_uuid := eu, entity_type := et
        name := r.name
        created_timestamp := r.created_timestamp.getD now
        modified_timestamp := r.modified_timestamp.getD now }

/-- Raw constructor keywords for `FeeSummary`. -/
structure RawFeeSummary where
  id : Option Int := none
  uuid : Option String := none
  billing_entity_uuid : Option String := none
  billing_date : Option Date := none
  fee_category : Option String := none
  fee_code : Option String := none
  currency : Option String := none
  total_period_units : Option Dec := none
  abs_period_units : Option Dec := none
  total_basis_amount : Option Dec := none
  abs_basis_amount : Option Dec := none
  total_fee_amount : Option Dec := none
  fee_rate_uuid : Option String := none
  request_uuid : Option String := none
  invoice_info_uuid : Option String := none
  fee_code_ledger_account_uuid : Option String := none
  credit_ledger_account_uuid : Option String := none
  debit_ledger_account_uuid : Option String := none
  exclude_from_invoice : Option Int := none
  created_timestamp : Option DateTime := none
  modified_timestamp : Option DateTime := none
deriving DecidableEq, Repr

/-- Pydantic construction of a `FeeSummary` from raw keywords; here both
timestamps are required (no default in `fee_summary.py`). -/
def FeeSummary.validate (r : RawFeeSummary) : Except VErr FeeSummary := do
  let idv ← require "id" r.id
  check "id" (0 < idv)
  let uuid ← require "uuid" r.uuid
  check "uuid" (uuid.length ≤ 26)
  let beu ← require "billing_entity_uuid" r.billing_entity_uuid
  check "billing_entity_uuid" (beu.length ≤ 26)
  let bd ← require "billing_date" r.billing_date
  let cat ← require "fee_category" r.fee_category
  check "fee_category" (cat.length ≤ 25)
  let code ← require "fee_code" r.fee_code
  check "fee_code" (code.length ≤ 25)
  let cur ← require "currency" r.currency
  check "currency" (cur.length ≤ 3)
  let tpu ← require "total_period_units" r.total_period_units
  check "total_period_units" (decOk 12 4 tpu)
  let apu ← require "abs_period_units" r.abs_period_units
  check "abs_period_units" (decOk 12 4 apu)
  let tba ← require "total_basis_amount" r.total_basis_amount
  check "total_basis_amount" (decOk 12 3 tba)
  let aba ← require "abs_basis_amount" r.abs_basis_amount
  check "abs_basis_amount" (decOk 12 3 aba)
  let tfa ← require "total_fee_amount" r.total_fee_amount
  check "total_fee_amount" (decOk 12 3 tfa)
  let fru ← require "fee_rate_uuid" r.fee_rate_uuid
  check "fee_rate_uuid" (fru.length ≤ 26)
  let ru ← require "request_uuid" r.request_uuid
  check "request_uuid" (ru.length ≤ 26)
  checkOpt "invoice_info_uuid" (fun s => s.length ≤ 26) r.invoice_info_uuid
  checkOpt "fee_code_ledger_account_uuid" (fun s => s.length ≤ 26) r.fee_code_ledger_account_uuid
  checkOpt "credit_ledger_account_uuid" (fun s => s.length ≤ 26) r.credit_ledger_account_uuid
  checkOpt "debit_ledger_account_uuid" (fun s => s.length ≤ 26) r.debit_ledger_account_uuid
  let efi ← require "exclude_from_invoice" r.exclude_from_invoice
  let ct ← require "created_timestamp" r.created_timestamp
  let mt ← require "modified_timestamp" r.modified_timestamp
  .ok { id := idv, uuid := uuid, billing_entity_uuid := beu, billing_date := bd
        fee_category := cat, fee_code := code, currency := cur
        total_period_units := tpu, abs_period_units := apu
        total_basis_amount := tba, abs_basis_amount := aba, total_fee_amount := tfa
        fee_rate_uuid := fru, request_uuid := ru
        invoice_info_uuid := r.invoice_info_uuid
        fee_code_ledger_account_uuid := r.fee_code_ledger_account_uuid
        credit_ledger_account_uuid := r.credit_ledger_account_uuid
        debit_ledger_account_uuid := r.debit_ledger_account_uuid
        exclude_from_invoice := efi, created_timestamp := ct, modified_timestamp := mt }

/-- Raw constructor keywords for `Settlement`. -/
structure RawSettlement where
  id : Option Int := none
  uuid : Option String := none
  settlement_date : Option Date := none
  billing_entity_uuid : Option String := none
  entity_uuid : Option String := none
  alternate_id : Option String := none
  payable_receivable : Option PayRec := none
  currency : Option String := none
  total_amount : Option Dec := none
  fee_amount : Option Dec := none
  tax1_amount : Option Dec := none
  tax2_amount : Option Dec := none
  tax3_amount : Option Dec := none
  tax4_amount : Option Dec := none
  lookup_ledger_account_key : Option String := none
  gl_code : Option String := none
  item_code : Option String := none
  last_invoice_num : Option String := none
  request_uuid : Option String := none
  created_timestamp : Option DateTime := none
  modified_timestamp : Option DateTime := none
deriving DecidableEq, Repr

/-- Pydantic construction of a `Settlement` from raw keywords; the four tax
amounts default to `Decimal("0.000")` and the timestamps to `now`. -/
def Settlement.validate (now : DateTime) (r : RawSettlement) :
    Except VErr Settlement := do
  let idv ← require "id" r.id
  check "id" (0 < idv)
  let uuid ← require "uuid" r.uuid
  check "uuid" (uuid.length ≤ 26)
  let sd ← require "settlement_date" r.settlement_date
  let beu ← require "billing_entity_uuid" r.billing_entity_uuid
  check "billing_entity_uuid" (beu.length ≤ 26)
  let eu ← require "entity_uuid" r.entity_uuid
  check "entity_uuid" (eu.length ≤ 13)
  checkOpt "alternate_id" (fun s => s.length ≤ 30) r.alternate_id
  let pr ← require "payable_receivable" r.payable_receivable
  let cur ← require "currency" r.currency
  check "currency" (cur.length ≤ 3)
  let ta ← require "total_amount" r.total_amount
  check "total_amount" (decOk 12 3 ta)
  let fa ← require "fee_amount" r.fee_amount
  check "fee_amount" (decOk 12 3 fa)
  check "tax1_amount" (decOk 12 3 (r.tax1_amount.getD ⟨0, 3⟩))
  check "tax2_amount" (decOk 12 3 (r.tax2_amount.getD ⟨0, 3⟩))
  check "tax3_amount" (decOk 12 3 (r.tax3_amount.getD ⟨0, 3⟩))
  check "tax4_amount" (decOk 12 3 (r.tax4_amount.getD ⟨0, 3⟩))
  let llak ← require "lookup_ledger_account_key" r.lookup_ledger_account_key
  check "lookup_ledger_account_key" (llak.length ≤ 32)
  checkOpt "gl_code" (fun s => s.length ≤ 40) r.gl_code
  checkOpt "item_code" (fun s => s.length ≤ 30) r.item_code
  checkOpt "last_invoice_num" (fun s => s.length ≤ 30) r.last_invoice_num
  checkOpt "request_uuid" (fun s => s.length ≤ 26) r.request_uuid
  .ok { id := idv, uuid := uuid, settlement_date := sd, billing_entity_uuid := beu
        entity_uuid := eu, alternate_id := r.alternate_id, payable_receivable := pr
        currency := cur, total_amount := ta, fee_amount := fa
        tax1_amount := r.tax1_amount.getD ⟨0, 3⟩, tax2_amount := r.tax2_amount.getD ⟨0, 3⟩
        tax3_amount := r.tax3_amount.getD ⟨0, 3⟩, tax4_amount := r.tax4_amount.getD ⟨0, 3⟩
        lookup_ledger_account_key := llak, gl_code := r.gl_code
        item_code := r.item_code, last_invoice_num := r.last_invoice_num
        request_uuid := r.request_uuid
        created_timestamp := r.created_timestamp.getD now
        modified_timestamp := r.modified_timestamp.getD now }

/-! ### Required-field lists, erasure, and representative raw inputs -/

/-- The required (no-default) fields of `FeeRate`. -/
def FeeRate.required_fields : List String :=
  ["id", "uuid", "billing_entity_uuid", "fee_category", "fee_code",
   "currency", "effective_date", "apply_type"]

/-- The required fields of `BillingEntity`. -/
def BillingEntity.required_fields : List String :=
  ["id", "uuid", "entity_uuid", "entity_type"]

/-- The required fields of `FeeSummary`. -/
def FeeSummary.required_fields : List String :=
  ["id", "uuid", "billing_entity_uuid", "billing_date", "fee_category",
   "fee_code", "currency", "total_period_units", "abs_period_units",
   "total_basis_amount", "abs_basis_amount", "total_fee_amount",
   "fee_rate_uuid", "request_uuid", "exclude_from_invoice",
   "created_timestamp", "modified_timestamp"]

/-- The required fields of `Settlement`. -/
def Settlement.required_fields : List String :=
  ["id", "uuid", "settlement_date", "billing_entity_uuid", "entity_uuid",
   "payable_receivable", "currency", "total_amount", "fee_amount",
   "lookup_ledger_account_key"]

/-- Drop one keyword from a raw `FeeRate` input. -/
def RawFeeRate.erase (r : RawFeeRate) : String → RawFeeRate
  | "id" => { r with id := none }
  | "uuid" => { r with uuid := none }
  | "billing_entity_uuid" => { r with billing_entity_uuid := none }
  | "fee_category" => { r with fee_category := none }
  | "fee_code" => { r with fee_code := none }
  | "currency" => { r with currency := none }
  | "effective_date" => { r with effective_date := none }
  | "apply_type" => { r with apply_type := none }
  | "per_item_amount" => { r with per_item_amount := none }
  | "percentage" => { r with percentage := none }
  | "created_timestamp" => { r with created_timestamp := none }
  | "modified_timestamp" => { r with modified_timestamp := none }
  | "audit_id" => { r with audit_id := none }
  | _ => r

/-- Drop one keyword from a raw `BillingEntity` input. -/
def RawBillingEntity.erase (r : RawBillingEntity) : String → RawBillingEntity
  | "id" => { r with id := none }
  | "uuid" => { r with uuid := none }
  | "entity_uuid" => { r with entity_uuid := none }
  | "entity_type" => { r with entity_type := none }
  | "name" => { r with name := none }
  | "created_timestamp" => { r with created_timestamp := none }
  | "modified_timestamp" => { r with modified_timestamp := none }
  | _ => r

/-- Drop one keyword from a raw `FeeSummary` input. -/
def RawFeeSummary.erase (r : RawFeeSummary) : String → RawFeeSummary
  | "id" => { r with id := none }
  | "uuid" => { r with uuid := none }
  | "billing_entity_uuid" => { r with billing_entity_uuid := none }
  | "billing_date" => { r with billing_date := none }
  | "fee_category" => { r with fee_category := none }
  | "fee_code" => { r with fee_code := none }
  | "currency" => { r with currency := none }
  | "total_period_units" => { r with total_period_units := none }
  | "abs_period_units" => { r with abs_period_units := none }
  | "total_basis_amount" => { r with total_basis_amount := none }
  | "abs_basis_amount" => { r with abs_basis_amount := none }
  | "total_fee_amount" => { r with total_fee_amount := none }
  | "fee_rate_uuid" => { r with fee_rate_uuid := none }
  | "request_uuid" => { r with request_uuid := none }
  | "invoice_info_uuid" => { r with invoice_info_uuid := none }
  | "fee_code_ledger_account_uuid" => { r with fee_code_ledger_account_uuid := none }
  | "credit_ledger_account_uuid" => { r with credit_ledger_account_uuid := none }
  | "debit_ledger_account_uuid" => { r with debit_ledger_account_uuid := none }
  | "exclude_from_invoice" => { r with exclude_from_invoice := none }
  | "created_timestamp" => { r with created_timestamp := none }
  | "modified_timestamp" => { r with modified_timestamp := none }
  | _ => r

/-- Drop one keyword from a raw `Settlement` input. -/
def RawSettlement.erase (r : RawSettlement) : String → RawSettlement
  | "id" => { r with id := none }
  | "uuid" => { r with uuid := none }
  | "settlement_date" => { r with settlement_date := none }
  | "billing_entity_uuid" => { r with billing_entity_uuid := none }
  | "entity_uuid" => { r with entity_uuid := none }
  | "alternate_id" => { r with alternate_id := none }
  | "payable_receivable" => { r with payable_receivable := none }
  | "currency" => { r with currency := none }
  | "total_amount" => { r with total_amount := none }
  | "fee_amount" => { r with fee_amount := none }
  | "tax1_amount" => { r with tax1_amount := none }
  | "tax2_amount" => { r with tax2_amount := none }
  | "tax3_amount" => { r with tax3_amount := none }
  | "tax4_amount" => { r with tax4_amount := none }
  | "lookup_ledger_account_key" => { r with lookup_ledger_account_key := none }
  | "gl_code" => { r with gl_code := none }
  | "item_code" => { r with item_code := none }
  | "last_invoice_num" => { r with last_invoice_num := none }
  | "request_uuid" => { r with request_uuid := none }
  | "created_timestamp" => { r with created_timestamp := none }
  | "modified_timestamp" => { r with modified_timestamp := none }
  | _ => r

/-- The keyword set of `fee_rate_1` in `create_pydantic_objects`, as a raw
input. -/
def raw_fee_rate_good : RawFeeRate where
  id := some 267888
  uuid := some "J65DRB7XHQQ1RTYJSBSTQQBW7K"
  billing_entity_uuid := some "M4JT4XQCPWPMW7WGA4G1Z5NGED"
  fee_category := some "APP_SUB_3P_RETAIL"
  fee_code := some "MW63DAWPN6JGY.S"
  currency := some "USD"
  effective_date := some (dOn 2017 2 15)
  apply_type := some .PER_ITEM
  per_item_amount := some ⟨999, 2⟩
  percentage := none
  created_timestamp := some (dtOn 2025 2 25 19 36 38 626269)
  modified_timestamp := some (dtOn 2025 2 25 19 36 38 626269)
  audit_id := none

/-- The keyword set of the merchant billing entity, as a raw input. -/
def raw_billing_entity_good : RawBillingEntity where
  id := some 1195
  uuid := some "JW8H2B9BT6B11R2HHXY3HYQCN6"
  entity_uuid := some "062X8PVY3XWB1"
  entity_type := some .MERCHANT
  name := some "MerchantMcMerchantface"
  created_timestamp := some (dtOn 2025 2 26 17 6 39 670150)
  modified_timestamp := some (dtOn 2025 2 26 17 6 39 670150)

/-- The keyword set of `fee_summary_1`, as a raw input. -/
def raw_fee_summary_good : RawFeeSummary where
  id := some 74347
  uuid := some "K576N1W35XYEVW7VH1JVDY1XRT"
  billing_entity_uuid := some "JW8H2B9BT6B11R2HHXY3HYQCN6"
  billing_date := some (dOn 2025 6 1)
  fee_category := some "APP_SUB_3P_RETAIL"
  fee_code := some "MW63DAWPN6JGY.S"
  currency := some "USD"
  total_period_units := some ⟨1, 0⟩
  abs_period_units := some ⟨1, 0⟩
  total_basis_amount := some ⟨0, 0⟩
  abs_basis_amount := some ⟨0, 0⟩
  total_fee_amount := some ⟨999, 2⟩
  fee_rate_uuid := some "J65DRB7XHQQ1RTYJSBSTQQBW7K"
  request_uuid := some "KNFZA2P2E2KMGKMATSY1RSD8TY"
  invoice_info_uuid := some "NFX80F4EH68BEW08384RX7RBMC"
  fee_code_ledger_account_uuid := some "DMW4K1XGB16DAEQ2ZRSJACE1WS"
  credit_ledger_account_uuid := some "KBERX62EJMWD8KEVFZRX0H875Z"
  debit_ledger_account_uuid := some "5XNJ7KBDBGNKVRFZYMCZJ6G5E7"
  exclude_from_invoice := some 0
  created_timestamp := some (dtOn 2025 6 2 14 56 15 960436)
  modified_timestamp := some (dtOn 2025 6 2 15 6 43 387646)

/-- The keyword set of `settlement_1`, as a raw input. -/
def raw_settlement_good : RawSettlement where
  id := some 6256
  uuid := some "NH8V7V2V0CQ0BWCTGVN6QBV753"
  settlement_date := some (dOn 2025 6 1)
  billing_entity_uuid := some "JW8H2B9BT6B11R2HHXY3HYQCN6"
  entity_uuid := some "062X8PVY3XWB1"
  alternate_id := some "209225173886"
  payable_receivable := some .RECEIVABLE
  currency := some "USD"
  total_amount := some ⟨999, 2⟩
  fee_amount := some ⟨999, 2⟩
  tax1_amount := some ⟨0, 0⟩
  tax2_amount := some ⟨0, 0⟩
  tax3_amount := some ⟨0, 0⟩
  tax4_amount := some ⟨0, 0⟩
  lookup_ledger_account_key := some "Incur.App.E8HJHPCT8AR08"
  gl_code := none
  item_code := some "E8HJHPCT8AR08"
  last_invoice_num := some "202506/000006200"
  request_uuid := some "CQ95HJ649AXSDG6RF4Z71Z8ATD"
  created_timestamp := some (dtOn 2025 6 2 16 9 51 666639)
  modified_timestamp := some (dtOn 2025 6 2 16 9 52 0)

/-- Required-field presence for a raw `FeeRate` input. -/
def RawFeeRate.required_ok (r : RawFeeRate) : Prop :=
  r.id.isSome ∧ r.uuid.isSome ∧ r.billing_entity_uuid.isSome ∧
    r.fee_category.isSome ∧ r.fee_code.isSome ∧ r.currency.isSome ∧
    r.effective_date.isSome ∧ r.apply_type.isSome

/-- Declared-constraint satisfaction for a raw `FeeRate` input. -/
def RawFeeRate.constraints_ok (r : RawFeeRate) : Prop :=
  (∀ v ∈ r.id, 0 < v) ∧ (∀ s ∈ r.uuid, s.length ≤ 26) ∧
    (∀ s ∈ r.billing_entity_uuid, s.length ≤ 26) ∧
    (∀ s ∈ r.fee_category, s.length ≤ 25) ∧ (∀ s ∈ r.fee_code, s.length ≤ 25) ∧
    (∀ s ∈ r.currency, s.length ≤ 3) ∧ (∀ d ∈ r.per_item_amount, decOk 12 3 d) ∧
    (∀ d ∈ r.percentage, decOk 5 2 d) ∧ (∀ s ∈ r.audit_id, s.length ≤ 26)

/-- Required-field presence for a raw `BillingEntity` input. -/
def RawBillingEntity.required_ok (r : RawBillingEntity) : Prop :=
  r.id.isSome ∧ r.uuid.isSome ∧ r.entity_uuid.isSome ∧ r.entity_type.isSome

/-- Declared-constraint satisfaction for a raw `BillingEntity` input. -/
def RawBillingEntity.constraints_ok (r : RawBillingEntity) : Prop :=
  (∀ v ∈ r.id, 0 < v) ∧ (∀ s ∈ r.uuid, s.length ≤ 26) ∧
    (∀ s ∈ r.entity_uuid, s.length ≤ 13) ∧ (∀ s ∈ r.name, s.length ≤ 127)

/-- Required-field presence for a raw `FeeSummary` input. -/
def RawFeeSummary.required_ok (r : RawFeeSummary) : Prop :=
  r.id.isSome ∧ r.uuid.isSome ∧ r.billing_entity_uuid.isSome ∧
    r.billing_date.isSome ∧ r.fee_category.isSome ∧ r.fee_code.isSome ∧
    r.currency.isSome ∧ r.total_period_units.isSome ∧ r.abs_period_units.isSome ∧
    r.total_basis_amount.isSome ∧ r.abs_basis_amount.isSome ∧
    r.total_fee_amount.isSome ∧ r.fee_rate_uuid.isSome ∧ r.request_uuid.isSome ∧
    r.exclude_from_invoice.isSome ∧ r.created_timestamp.isSome ∧
    r.modified_timestamp.isSome

/-- Declared-constraint satisfaction for a raw `FeeSummary` input. -/
def RawFeeSummary.constraints_ok (r : RawFeeSummary) : Prop :=
  (∀ v ∈ r.id, 0 < v) ∧ (∀ s ∈ r.uuid, s.length ≤ 26) ∧
    (∀ s ∈ r.billing_entity_uuid, s.length ≤ 26) ∧
    (∀ s ∈ r.fee_category, s.length ≤ 25) ∧ (∀ s ∈ r.fee_code, s.length ≤ 25) ∧
    (∀ s ∈ r.currency, s.length ≤ 3) ∧
    (∀ d ∈ r.total_period_units, decOk 12 4 d) ∧
    (∀ d ∈ r.abs_period_units, decOk 12 4 d) ∧
    (∀ d ∈ r.total_basis_amount, decOk 12 3 d) ∧
    (∀ d ∈ r.abs_basis_amount, decOk 12 3 d) ∧
    (∀ d ∈ r.total_fee_amount, decOk 12 3 d) ∧
    (∀ s ∈ r.fee_rate_uuid, s.length ≤ 26) ∧ (∀ s ∈ r.request_uuid, s.length ≤ 26) ∧
    (∀ s ∈ r.invoice_info_uuid, s.length ≤ 26) ∧
    (∀ s ∈ r.fee_code_ledger_account_uuid, s.length ≤ 26) ∧
    (∀ s ∈ r.credit_ledger_account_uuid, s.length ≤ 26) ∧
    (∀ s ∈ r.debit_ledger_account_uuid, s.length ≤ 26)

/-- Required-field presence for a raw `Settlement` input. -/
def RawSettlement.required_ok (r : RawSettlement) : Prop :=
  r.id.isSome ∧ r.uuid.isSome ∧ r.settlement_date.isSome ∧
    r.billing_entity_uuid.isSome ∧ r.entity_uuid.isSome ∧
    r.payable_receivable.isSome ∧ r.currency.isSome ∧ r.total_amount.isSome ∧
    r.fee_amount.isSome ∧ r.lookup_ledger_account_key.isSome

/-- Declared-constraint satisfaction for a raw `Settlement` input. -/
def RawSettlement.constraints_ok (r : RawSettlement) : Prop :=
  (∀ v ∈ r.id, 0 < v) ∧ (∀ s ∈ r.uuid, s.length ≤ 26) ∧
    (∀ s ∈ r.billing_entity_uuid, s.length ≤ 26) ∧
    (∀ s ∈ r.entity_uuid, s.length ≤ 13) ∧ (∀ s ∈ r.alternate_id, s.length ≤ 30) ∧
    (∀ s ∈ r.currency, s.length ≤ 3) ∧ (∀ d ∈ r.total_amount, decOk 12 3 d) ∧
    (∀ d ∈ r.fee_amount, decOk 12 3 d) ∧ (∀ d ∈ r.tax1_amount, decOk 12 3 d) ∧
    (∀ d ∈ r.tax2_amount, decOk 12 3 d) ∧ (∀ d ∈ r.tax3_amount, decOk 12 3 d) ∧
    (∀ d ∈ r.tax4_amount, decOk 12 3 d) ∧
    (∀ s ∈ r.lookup_ledger_account_key, s.length ≤ 32) ∧
    (∀ s ∈ r.gl_code, s.length ≤ 40) ∧ (∀ s ∈ r.item_code, s.length ≤ 30) ∧
    (∀ s ∈ r.last_invoice_num, s.length ≤ 30) ∧ (∀ s ∈ r.request_uuid, s.length ≤ 26)

/-! ### Parsing the full JSON representation back (pydantic
`model_validate_json`) -/

/-- Split a character list at the first occurrence of a separator. -/
def breakAt (sep : Char) : List Char → List Char × Option (List Char)
  | [] => ([], none)
  | c :: cs =>
    if c = sep then ([], some cs)
    else
      let r := breakAt sep cs
      (c :: r.1, r.2)

/-- Parse an unsigned fixed-point body: integer digits with an optional
point and fraction digits; the scale is the number of fraction digits, kept
exactly. -/
def parseDecAux (neg : Bool) (body : List Char) : Option Dec :=
  match breakAt '.' body with
  | (ip, none) =>
    if ip ≠ [] ∧ ip.all isDigit then
      some ⟨if neg then -(foldDigits ip : Int) else (foldDigits ip : Int), 0⟩
    else none
  | (ip, some fp) =>
    if ip ≠ [] ∧ fp ≠ [] ∧ ip.all isDigit ∧ fp.all isDigit then
      let m : Nat := foldDigits ip * 10 ^ fp.length + foldDigits fp
      some ⟨if neg then -(m : Int) else (m : Int), fp.length⟩
    else none

/-- Parse the plain fixed-point decimal grammar produced by `decStr`: an
optional leading sign, then the unsigned body. -/
def parseDecChars (cs : List Char) : Option Dec :=
  if cs.head? = some '-' then parseDecAux true cs.tail else parseDecAux false cs

/-- `Decimal(str)` on a rendered decimal string. -/
def parseDec (s : String) : Option Dec := parseDecChars s.data

/-- Parse `YYYY-MM-DD` with the range checks CPython's date parsing makes. -/
def parseDateChars (cs : List Char) : Option Date :=
  match breakAt '-' cs with
  | (ys, some r1) =>
    match breakAt '-' r1 with
    | (ms, some ds) =>
      if ys.length = 4 ∧ ms.length = 2 ∧ ds.length = 2 ∧
          ys.all isDigit ∧ ms.all isDigit ∧ ds.all isDigit then
        let dt : Date := ⟨foldDigits ys, foldDigits ms, foldDigits ds⟩
        if dateOk dt then some dt else none
      else none
    | _ => none
  | _ => none

/-- `date.fromisoformat` on a rendered date string. -/
def parseDate (s : String) : Option Date := parseDateChars s.data

/-- Parse `HH:MM:SS` with an optional fraction of one to six digits, scaled
to microseconds as pydantic does. -/
def parseTimeChars (cs : List Char) : Option (Nat × Nat × Nat × Nat) :=
  match breakAt ':' cs with
  | (hs, some r1) =>
    match breakAt ':' r1 with
    | (ms, some r2) =>
      match breakAt '.' r2 with
      | (ss, frac) =>
        if hs.length = 2 ∧ ms.length = 2 ∧ ss.length = 2 ∧
            hs.all isDigit ∧ ms.all isDigit ∧ ss.all isDigit then
          match frac with
          | none => some (foldDigits hs, foldDigits ms, foldDigits ss, 0)
          | some fs =>
            if 1 ≤ fs.length ∧ fs.length ≤ 6 ∧ fs.all isDigit then
              some (foldDigits hs, foldDigits ms, foldDigits ss,
                foldDigits fs * 10 ^ (6 - fs.length))
            else none
        else none
    | _ => none
  | _ => none

/-- Parse an ISO-8601 datetime (date, `T` or space, time), with the range
checks made on parsing. -/
def parseDateTimeChars (cs : List Char) : Option DateTime :=
  let split := match breakAt 'T' cs with
    | (d, some t) => some (d, t)
    | (_, none) =>
      match breakAt ' ' cs with
      | (d, some t) => some (d, t)
      | (_, none) => none
  match split with
  | none => none
  | some (dcs, tcs) =>
    match parseDateChars dcs, parseTimeChars tcs with
    | some d, some (h, mi, s, us) =>
      if h < 24 ∧ mi < 60 ∧ s < 60 then some ⟨d, h, mi, s, us⟩ else none
    | _, _ => none

/-- `datetime.fromisoformat`-style parsing on a rendered datetime string. -/
def parseDateTime (s : String) : Option DateTime := parseDateTimeChars s.data

/-- Parse an `ApplyType` tag from its string value. -/
def ApplyType.parse (s : String) : Option ApplyType :=
  if s = "DEFAULT" then some .DEFAULT
  else if s = "PER_ITEM" then some .PER_ITEM
  else if s = "PERCENTAGE" then some .PERCENTAGE
  else if s = "BOTH" then some .BOTH
  else if s = "NONE" then some .NONE
  else if s = "FLAT" then some .FLAT
  else none

/-- Read a required integer field from a JSON object (`none` when the key is
absent, so the validator reports it as missing). -/
def readInt (fields : List (String × J)) (k : String) : Except VErr (Option Int) :=
  match fields.lookup k with
  | none => .ok none
  | some (.int n) => .ok (some n)
  | some _ => .error (.invalid k)

/-- Read a required string field. -/
def readStr (fields : List (String × J)) (k : String) : Except VErr (Option String) :=
  match fields.lookup k with
  | none => .ok none
  | some (.str s) => .ok (some s)
  | some _ => .error (.invalid k)

/-- Read an optional string field (`null` and an absent key are both unset). -/
def readOptStr (fields : List (String × J)) (k : String) : Except VErr (Option String) :=
  match fields.lookup k with
  | none => .ok none
  | some .null => .ok none
  | some (.str s) => .ok (some s)
  | some _ => .error (.invalid k)

/-- Read an optional decimal field from its string rendering. -/
def readOptDec (fields : List (String × J)) (k : String) : Except VErr (Option Dec) :=
  match fields.lookup k with
  | none => .ok none
  | some .null => .ok none
  | some (.str s) =>
    match parseDec s with
    | some d => .ok (some d)
    | none => .error (.invalid k)
  | some _ => .error (.invalid k)

/-- Read a required date field from its ISO rendering. -/
def readDate (fields : List (String × J)) (k : String) : Except VErr (Option Date) :=
  match fields.lookup k with
  | none => .ok none
  | some (.str s) =>
    match parseDate s with
    | some d => .ok (some d)
    | none => .error (.invalid k)
  | some _ => .error (.invalid k)

/-- Read a datetime field from its ISO rendering (an absent key is unset, so
a `default_factory` can fill it). -/
def readDateTime (fields : List (String × J)) (k : String) : Except VErr (Option DateTime) :=
  match fields.lookup k with
  | none => .ok none
  | some (.str s) =>
    match parseDateTime s with
    | some t => .ok (some t)
    | none => .error (.invalid k)
  | some _ => .error (.invalid k)

/-- Read the `ApplyType` tag field. -/
def readApply (fields : List (String × J)) (k : String) : Except VErr (Option ApplyType) :=
  match fields.lookup k with
  | none => .ok none
  | some (.str s) =>
    match ApplyType.parse s with
    | some a => .ok (some a)
    | none => .error (.invalid k)
  | some _ => .error (.invalid k)

/-- Decode the raw keyword set of a `FeeRate` from a serialized JSON object. -/
def FeeRate.raw_of_json (fields : List (String × J)) : Except VErr RawFeeRate := do
  let idv ← readInt fields "id"
  let uuid ← readStr fields "uuid"
  let beu ← readStr fields "billing_entity_uuid"
  let cat ← readStr fields "fee_category"
  let code ← readStr fields "fee_code"
  let cur ← readStr fields "currency"
  let eff ← readDate fields "effective_date"
  let app ← readApply fields "apply_type"
  let pia ← readOptDec fields "per_item_amount"
  let pct ← readOptDec fields "percentage"
  let ct ← readDateTime fields "created_timestamp"
  let mt ← readDateTime fields "modified_timestamp"
  let aid ← readOptStr fields "audit_id"
  .ok { id := idv, uuid := uuid, billing_entity_uuid := beu, fee_category := cat
        fee_code := code, currency := cur, effective_date := eff, apply_type := app
        per_item_amount := pia, percentage := pct
        created_timestamp := ct, modified_timestamp := mt, audit_id := aid }

/-- Pydantic `model_validate_json` for `FeeRate`: decode the JSON object to
raw keywords, then run the same construction validation as `__init__`. -/
def FeeRate.model_validate_json (now : DateTime) (fields : List (String × J)) :
    Except VErr FeeRate :=
  (FeeRate.raw_of_json fields).bind (FeeRate.validate now)

/-- The declared constraints, as satisfied by every successfully constructed
`FeeRate` instance. -/
def FeeRate.Valid (r : FeeRate) : Prop :=
  0 < r.id ∧ r.uuid.length ≤ 26 ∧ r.billing_entity_uuid.length ≤ 26 ∧
    r.fee_category.length ≤ 25 ∧ r.fee_code.length ≤ 25 ∧ r.currency.length ≤ 3 ∧
    dateOk r.effective_date ∧ (∀ d ∈ r.per_item_amount, decOk 12 3 d) ∧
    (∀ d ∈ r.percentage, decOk 5 2 d) ∧ dtOk r.created_timestamp ∧
    dtOk r.modified_timestamp ∧ (∀ s ∈ r.audit_id, s.length ≤ 26)

instance (r : FeeRate) : Decidable r.Valid := by
  unfold FeeRate.Valid; infer_instance

/-- Whether an output line is the serialized document. -/
def OutLine.isDoc : OutLine → Bool
  | .doc _ => true
  | .msg _ => false

/-! ## Lemmas: the graph construction as a fold -/

lemma add_node_gstep (G : DiGraph) (u : String) (d : NodeData) :
    G.add_node u d =
      DiGraph.mk (gstep (G.nodes, G.adj) (.node u d)).1 (gstep (G.nodes, G.adj) (.node u d)).2 := by
  simp only [DiGraph.add_node, DiGraph.hasNode, gstep]
  split
  · rfl
  · rfl

lemma add_edge_gstep (G : DiGraph) (u v : String) :
    G.add_edge u v =
      DiGraph.mk (gstep (G.nodes, G.adj) (.edge u v)).1 (gstep (G.nodes, G.adj) (.edge u v)).2 := by
  simp only [DiGraph.add_edge, DiGraph.touch, DiGraph.hasNode, gstep]
  split <;> split <;> rfl

lemma applyOps_foldl (G : DiGraph) (ops : List GOp) :
    applyOps G ops =
      DiGraph.mk (ops.foldl gstep (G.nodes, G.adj)).1 (ops.foldl gstep (G.nodes, G.adj)).2 := by
  induction ops generalizing G with
  | nil => rfl
  | cons op rest ih =>
    cases op with
    | node u d =>
      rw [applyOps, ih, add_node_gstep]
      rfl
    | edge u v =>
      rw [applyOps, ih, add_edge_gstep]
      rfl

lemma create_graph_ops (now : DateTime) :
    create_graph now = applyOps DiGraph.empty (demo_ops now) := rfl

set_option maxHeartbeats 2000000 in
lemma create_graph_adj (now : DateTime) : (create_graph now).adj =
  [("billing_entity_merchant", ["invoice_info_1"]),
   ("billing_entity_clover", []),
   ("billing_entity_us_support", []),
   ("invoice_info_1", ["fee_rate_1", "fee_rate_2", "fee_rate_3", "fee_rate_4", "fee_rate_5", "fee_rate_6"]),
   ("fee_rate_1", ["fee_summary_1"]),
   ("fee_rate_2", ["fee_summary_2"]),
   ("fee_rate_3", ["fee_summary_3"]),
   ("fee_rate_4", ["fee_summary_4"]),
   ("fee_rate_5", ["fee_summary_5"]),
   ("fee_rate_6", ["fee_summary_6"]),
   ("fee_summary_1", ["settlement_1"]),
   ("fee_summary_2", ["settlement_2"]),
   ("fee_summary_3", ["settlement_3"]),
   ("fee_summary_4", ["settlement_4"]),
   ("fee_summary_5", ["settlement_4"]),
   ("fee_summary_6", ["settlement_4"]),
   ("settlement_1", ["billing_entity_clover", "billing_entity_us_support"]),
   ("settlement_2", ["billing_entity_clover", "billing_entity_us_support"]),
   ("settlement_3", ["billing_entity_clover", "billing_entity_us_support"]),
   ("settlement_4", ["billing_entity_clover", "billing_entity_us_support"])] := by
  rw [create_graph_ops, applyOps_foldl]
  simp [demo_ops, List.foldl_cons, List.foldl_nil, gstep, List.lookup, Option.isSome,
    DiGraph.empty]

set_option maxHeartbeats 2000000 in
lemma create_graph_nodes (now : DateTime) : (create_graph now).nodes =
  [("billing_entity_merchant", some (nd_merchant now)),
   ("billing_entity_clover", some (nd_clover now)),
   ("billing_entity_us_support", some (nd_us_support now)),
   ("invoice_info_1", some (nd_invoice now)),
   ("fee_rate_1", some (nd_fee_rate now 1)),
   ("fee_rate_2", some (nd_fee_rate now 2)),
   ("fee_rate_3", some (nd_fee_rate now 3)),
   ("fee_rate_4", some (nd_fee_rate now 4)),
   ("fee_rate_5", some (nd_fee_rate now 5)),
   ("fee_rate_6", some (nd_fee_rate now 6)),
   ("fee_summary_1", some (nd_fee_summary now 1)),
   ("fee_summary_2", some (nd_fee_summary now 2)),
   ("fee_summary_3", some (nd_fee_summary now 3)),
   ("fee_summary_4", some (nd_fee_summary now 4)),
   ("fee_summary_5", some (nd_fee_summary now 5)),
   ("fee_summary_6", some (nd_fee_summary now 6)),
   ("settlement_1", some (nd_settlement now 1)),
   ("settlement_2", some (nd_settlement now 2)),
   ("settlement_3", some (nd_settlement now 3)),
   ("settlement_4", some (nd_settlement now 4))] := by
  rw [create_graph_ops, applyOps_foldl]
  simp [demo_ops, List.foldl_cons, List.foldl_nil, gstep, List.lookup, Option.isSome,
    DiGraph.empty]

lemma create_graph_edges (now : DateTime) : (create_graph now).edges =
  [("billing_entity_merchant", "invoice_info_1"),
   ("invoice_info_1", "fee_rate_1"), ("invoice_info_1", "fee_rate_2"),
   ("invoice_info_1", "fee_rate_3"), ("invoice_info_1", "fee_rate_4"),
   ("invoice_info_1", "fee_rate_5"), ("invoice_info_1", "fee_rate_6"),
   ("fee_rate_1", "fee_summary_1"), ("fee_rate_2", "fee_summary_2"),
   ("fee_rate_3", "fee_summary_3"), ("fee_rate_4", "fee_summary_4"),
   ("fee_rate_5", "fee_summary_5"), ("fee_rate_6", "fee_summary_6"),
   ("fee_summary_1", "settlement_1"), ("fee_summary_2", "settlement_2"),
   ("fee_summary_3", "settlement_3"), ("fee_summary_4", "settlement_4"),
   ("fee_summary_5", "settlement_4"), ("fee_summary_6", "settlement_4"),
   ("settlement_1", "billing_entity_clover"), ("settlement_1", "billing_entity_us_support"),
   ("settlement_2", "billing_entity_clover"), ("settlement_2", "billing_entity_us_support"),
   ("settlement_3", "billing_entity_clover"), ("settlement_3", "billing_entity_us_support"),
   ("settlement_4", "billing_entity_clover"), ("settlement_4", "billing_entity_us_support")] := by
  simp only [DiGraph.edges, create_graph_adj]
  rfl

/-! ## Claim theorems: the sample graph -/

/-- C2: the sample graph built by `create_graph` has exactly 20 nodes and
exactly 27 edges of the stated shape — 1 edge from the merchant billing
entity to the invoice, 6 from the invoice to the six fee rates, 6 one-to-one
from each fee rate to its fee summary, 6 from fee summaries to settlements
with summaries 4, 5, 6 converging on settlement 4 and summaries 1, 2, 3 each
on their own settlement, and 2 edges from each of the 4 settlements to the
two downstream billing entities. -/
theorem C2_sample_graph_shape (now : DateTime) :
    (create_graph now).nodes.length = 20 ∧
    (create_graph now).edges.length = 27 ∧
    (create_graph now).edges.filter (fun e => e.1 == "billing_entity_merchant") =
      [("billing_entity_merchant", "invoice_info_1")] ∧
    (create_graph now).edges.filter (fun e => e.1 == "invoice_info_1") =
      [("invoice_info_1", "fee_rate_1"), ("invoice_info_1", "fee_rate_2"),
       ("invoice_info_1", "fee_rate_3"), ("invoice_info_1", "fee_rate_4"),
       ("invoice_info_1", "fee_rate_5"), ("invoice_info_1", "fee_rate_6")] ∧
    (create_graph now).edges.filter (fun e =>
        ["fee_rate_1", "fee_rate_2", "fee_rate_3", "fee_rate_4", "fee_rate_5",
         "fee_rate_6"].contains e.1) =
      [("fee_rate_1", "fee_summary_1"), ("fee_rate_2", "fee_summary_2"),
       ("fee_rate_3", "fee_summary_3"), ("fee_rate_4", "fee_summary_4"),
       ("fee_rate_5", "fee_summary_5"), ("fee_rate_6", "fee_summary_6")] ∧
    (create_graph now).edges.filter (fun e =>
        ["fee_summary_1", "fee_summary_2", "fee_summary_3", "fee_summary_4",
         "fee_summary_5", "fee_summary_6"].contains e.1) =
      [("fee_summary_1", "settlement_1"), ("fee_summary_2", "settlement_2"),
       ("fee_summary_3", "settlement_3"), ("fee_summary_4", "settlement_4"),
       ("fee_summary_5", "settlement_4"), ("fee_summary_6", "settlement_4")] ∧
    (create_graph now).edges.filter (fun e => e.2 == "settlement_4") =
      [("fee_summary_4", "settlement_4"), ("fee_summary_5", "settlement_4"),
       ("fee_summary_6", "settlement_4")] ∧
    ((create_graph now).edges.filter (fun e => e.2 == "settlement_1")).length = 1 ∧
    ((create_graph now).edges.filter (fun e => e.2 == "settlement_2")).length = 1 ∧
    ((create_graph now).edges.filter (fun e => e.2 == "settlement_3")).length = 1 ∧
    (create_graph now).edges.filter (fun e =>
        ["settlement_1", "settlement_2", "settlement_3", "settlement_4"].contains e.1) =
      [("settlement_1", "billing_entity_clover"), ("settlement_1", "billing_entity_us_support"),
       ("settlement_2", "billing_entity_clover"), ("settlement_2", "billing_entity_us_support"),
       ("settlement_3", "billing_entity_clover"), ("settlement_3", "billing_entity_us_support"),
       ("settlement_4", "billing_entity_clover"), ("settlement_4", "billing_entity_us_support")] := by
  have hn := create_graph_nodes now
  have he := create_graph_edges now
  refine ⟨by rw [hn]; rfl, by rw [he]; rfl, by rw [he]; decide, by rw [he]; decide,
    by rw [he]; decide, by rw [he]; decide, by rw [he]; decide, by rw [he]; decide,
    by rw [he]; decide, by rw [he]; decide, by rw [he]; decide⟩

/-- Closed instance of `C2_sample_graph_shape` at a concrete clock value. -/
theorem C2_sample_graph_shape_witness :
    ((create_graph (dtOn 2025 1 1 0 0 0 0)).nodes.length = 20 ∧
      (create_graph (dtOn 2025 1 1 0 0 0 0)).edges.length = 27) :=
  ⟨(C2_sample_graph_shape (dtOn 2025 1 1 0 0 0 0)).1,
   (C2_sample_graph_shape (dtOn 2025 1 1 0 0 0 0)).2.1⟩

/-- C10: the sample graph is acyclic — no chain of its directed edges leads
from a node back to itself (shown by the strictly increasing pipeline rank
along every edge). -/
theorem C10_sample_graph_acyclic (now : DateTime) :
    ∀ n, ¬ Relation.TransGen (edge_of (create_graph now)) n n := by
  intro n hn
  have hall : ∀ p ∈ (create_graph now).edges, node_rank p.1 < node_rank p.2 := by
    rw [create_graph_edges]
    decide
  have hmono : ∀ a b, Relation.TransGen (edge_of (create_graph now)) a b →
      node_rank a < node_rank b := by
    intro a b h
    induction h with
    | single h => exact hall _ h
    | tail _ h ih => exact lt_trans ih (hall _ h)
  exact lt_irrefl _ (hmono n n hn)

/-- Closed instance of `C10_sample_graph_acyclic` at a concrete clock value
and node. -/
theorem C10_sample_graph_acyclic_witness :
    ¬ Relation.TransGen (edge_of (create_graph (dtOn 2025 1 1 0 0 0 0)))
      "invoice_info_1" "invoice_info_1" :=
  C10_sample_graph_acyclic (dtOn 2025 1 1 0 0 0 0) "invoice_info_1"

/-! ## Claim theorems: the serialized document -/

lemma doc_nodes_serialize (G : DiGraph) :
    doc_nodes (serialize_graph G) = G.nodes.map nodeEntry := rfl

lemma doc_edges_serialize (G : DiGraph) :
    doc_edges (serialize_graph G) =
      G.edges.map (fun e => .obj [("source", .str e.1), ("target", .str e.2)]) := rfl

/-- C6: the serialized document is one JSON object with exactly the two
top-level keys `nodes` and `edges`; every node entry carries exactly the keys
`id`, `table`, `minimal` and `others`; node entries appear in node insertion
order and edge entries in edge insertion order (for this graph the iteration
order of the adjacency equals the `add_edge` call order); every edge entry
carries exactly `source` and `target`; and for each entity type the `others`
mapping holds exactly the full attribute names minus the minimal-field
names. -/
theorem C6_document_shape (now : DateTime) :
    (serialize_graph (create_graph now)).keys = ["nodes", "edges"] ∧
    (doc_nodes (serialize_graph (create_graph now))).map Jx.keys =
      List.replicate 20 ["id", "table", "minimal", "others"] ∧
    (doc_nodes (serialize_graph (create_graph now))).map entry_id =
      [some "billing_entity_merchant", some "billing_entity_clover",
       some "billing_entity_us_support", some "invoice_info_1",
       some "fee_rate_1", some "fee_rate_2", some "fee_rate_3",
       some "fee_rate_4", some "fee_rate_5", some "fee_rate_6",
       some "fee_summary_1", some "fee_summary_2", some "fee_summary_3",
       some "fee_summary_4", some "fee_summary_5", some "fee_summary_6",
       some "settlement_1", some "settlement_2", some "settlement_3",
       some "settlement_4"] ∧
    (doc_edges (serialize_graph (create_graph now))).map Jx.keys =
      List.replicate 27 ["source", "target"] ∧
    (doc_edges (serialize_graph (create_graph now))).map entry_pair =
      [some ("billing_entity_merchant", "invoice_info_1"),
       some ("invoice_info_1", "fee_rate_1"), some ("invoice_info_1", "fee_rate_2"),
       some ("invoice_info_1", "fee_rate_3"), some ("invoice_info_1", "fee_rate_4"),
       some ("invoice_info_1", "fee_rate_5"), some ("invoice_info_1", "fee_rate_6"),
       some ("fee_rate_1", "fee_summary_1"), some ("fee_rate_2", "fee_summary_2"),
       some ("fee_rate_3", "fee_summary_3"), some ("fee_rate_4", "fee_summary_4"),
       some ("fee_rate_5", "fee_summary_5"), some ("fee_rate_6", "fee_summary_6"),
       some ("fee_summary_1", "settlement_1"), some ("fee_summary_2", "settlement_2"),
       some ("fee_summary_3", "settlement_3"), some ("fee_summary_4", "settlement_4"),
       some ("fee_summary_5", "settlement_4"), some ("fee_summary_6", "settlement_4"),
       some ("settlement_1", "billing_entity_clover"),
       some ("settlement_1", "billing_entity_us_support"),
       some ("settlement_2", "billing_entity_clover"),
       some ("settlement_2", "billing_entity_us_support"),
       some ("settlement_3", "billing_entity_clover"),
       some ("settlement_3", "billing_entity_us_support"),
       some ("settlement_4", "billing_entity_clover"),
       some ("settlement_4", "billing_entity_us_support")] ∧
    (∀ r : FeeRate, ∀ tbl, (create_node_data r tbl).others.map Prod.fst =
      ((FeeRate.model_dump r).map Prod.fst).filter
        (fun k => !(FeeRate.MINIMAL_FIELDS.contains k))) ∧
    (∀ r : BillingEntity, ∀ tbl, (create_node_data r tbl).others.map Prod.fst =
      ((BillingEntity.model_dump r).map Prod.fst).filter
        (fun k => !(BillingEntity.MINIMAL_FIELDS.contains k))) ∧
    (∀ r : FeeSummary, ∀ tbl, (create_node_data r tbl).others.map Prod.fst =
      ((FeeSummary.model_dump r).map Prod.fst).filter
        (fun k => !(FeeSummary.MINIMAL_FIELDS.contains k))) ∧
    (∀ r : Settlement, ∀ tbl, (create_node_data r tbl).others.map Prod.fst =
      ((Settlement.model_dump r).map Prod.fst).filter
        (fun k => !(Settlement.MINIMAL_FIELDS.contains k))) ∧
    (∀ r : InvoiceInfo, ∀ tbl, (create_node_data r tbl).others.map Prod.fst =
      ((InvoiceInfo.model_dump r).map Prod.fst).filter
        (fun k => !(InvoiceInfo.MINIMAL_FIELDS.contains k))) := by
  have hn := create_graph_nodes now
  have he := create_graph_edges now
  refine ⟨rfl, ?_, ?_, ?_, ?_, fun r tbl => rfl, fun r tbl => rfl, fun r tbl => rfl,
    fun r tbl => rfl, fun r tbl => rfl⟩
  · rw [doc_nodes_serialize, hn]; rfl
  · rw [doc_nodes_serialize, hn]; rfl
  · rw [doc_edges_serialize, he]; rfl
  · rw [doc_edges_serialize, he]; rfl

/-- Closed instance of `C6_document_shape` at a concrete clock value. -/
theorem C6_document_shape_witness :
    (serialize_graph (create_graph (dtOn 2025 1 1 0 0 0 0))).keys = ["nodes", "edges"] :=
  (C6_document_shape (dtOn 2025 1 1 0 0 0 0)).1

/-- C5: the CLI entry point prints the serialized document and returns 0 on
success; when the construct-and-serialize pipeline raises, it prints the
single line `Error: ...`, emits no (partial) document, and returns 1, which
the spec-modelled console-script wrapper passes to the process exit. -/
theorem C5_cli_exit_behavior (now : DateTime) :
    main (demo_pipeline now) = ([.doc (serialize_graph (create_graph now))], 0) ∧
    (∀ e, main (Except.error e) = ([.msg ("Error: " ++ e)], 1)) ∧
    (∀ e, ((main (Except.error e)).1.all (fun l => !l.isDoc)) = true) := by
  exact ⟨rfl, fun e => rfl, fun e => rfl⟩

/-- Closed instance of `C5_cli_exit_behavior` at a concrete clock value and
error message. -/
theorem C5_cli_exit_behavior_witness :
    (main (demo_pipeline (dtOn 2025 1 1 0 0 0 0))).2 = 0 ∧
    (main (Except.error "boom")).2 = 1 :=
  ⟨by rw [(C5_cli_exit_behavior (dtOn 2025 1 1 0 0 0 0)).1],
   by rw [(C5_cli_exit_behavior (dtOn 2025 1 1 0 0 0 0)).2.1 "boom"]⟩

/-! ## Claim theorems: the minimal projection -/

/-- C1: for every embedded entity type, `to_minimal_dict` returns a mapping
whose key set equals the type's `MINIMAL_FIELDS`; unset optionals belonging
to the minimal set appear with a `null` value, never as an absent key; and a
`FeeRate` with `per_item_amount = "9.99"` and `apply_type = PER_ITEM`
includes those two keys and excludes `uuid` and `billing_entity_uuid`. -/
theorem C1_minimal_projection_keys :
    (∀ r : FeeRate, ((to_minimal_dict r).map Prod.fst).Perm FeeRate.MINIMAL_FIELDS) ∧
    (∀ r : BillingEntity,
      ((to_minimal_dict r).map Prod.fst).Perm BillingEntity.MINIMAL_FIELDS) ∧
    (∀ r : FeeSummary,
      ((to_minimal_dict r).map Prod.fst).Perm FeeSummary.MINIMAL_FIELDS) ∧
    (∀ r : Settlement,
      ((to_minimal_dict r).map Prod.fst).Perm Settlement.MINIMAL_FIELDS) ∧
    (∀ r : InvoiceInfo,
      ((to_minimal_dict r).map Prod.fst).Perm InvoiceInfo.MINIMAL_FIELDS) ∧
    (∀ r : FeeRate, r.per_item_amount = none →
      ("per_item_amount", J.null) ∈ to_minimal_dict r) ∧
    (∀ r : FeeRate, r.percentage = none → ("percentage", J.null) ∈ to_minimal_dict r) ∧
    (∀ r : BillingEntity, r.name = none → ("name", J.null) ∈ to_minimal_dict r) ∧
    (∀ r : FeeRate, r.per_item_amount = some ⟨999, 2⟩ → r.apply_type = .PER_ITEM →
      ("per_item_amount", J.str "9.99") ∈ to_minimal_dict r ∧
      ("apply_type", J.str "PER_ITEM") ∈ to_minimal_dict r ∧
      "uuid" ∉ (to_minimal_dict r).map Prod.fst ∧
      "billing_entity_uuid" ∉ (to_minimal_dict r).map Prod.fst) := by
  refine ⟨?_, ?_, ?_, ?_, ?_, ?_, ?_, ?_, ?_⟩
  · intro r
    have h : (to_minimal_dict r).map Prod.fst =
        ["fee_category", "fee_code", "currency", "effective_date", "apply_type",
         "per_item_amount", "percentage"] := rfl
    rw [h]
    decide
  · intro r
    have h : (to_minimal_dict r).map Prod.fst = ["entity_type", "name"] := rfl
    rw [h]
    decide
  · intro r
    have h : (to_minimal_dict r).map Prod.fst =
        ["total_period_units", "total_basis_amount", "total_fee_amount"] := rfl
    rw [h]
    decide
  · intro r
    have h : (to_minimal_dict r).map Prod.fst =
        ["settlement_date", "payable_receivable", "currency", "total_amount",
         "fee_amount"] := rfl
    rw [h]
    decide
  · intro r
    have h : (to_minimal_dict r).map Prod.fst =
        ["billing_date", "invoice_num", "currency", "total_amount"] := rfl
    rw [h]
    decide
  · intro r h
    have hd : to_minimal_dict r =
        [("fee_category", .str r.fee_category), ("fee_code", .str r.fee_code),
         ("currency", .str r.currency), ("effective_date", .str (dateStr r.effective_date)),
         ("apply_type", .str r.apply_type.value),
         ("per_item_amount", optJ (fun d => .str (decStr d)) r.per_item_amount),
         ("percentage", optJ (fun d => .str (decStr d)) r.percentage)] := rfl
    rw [hd, h]
    simp [optJ]
  · intro r h
    have hd : to_minimal_dict r =
        [("fee_category", .str r.fee_category), ("fee_code", .str r.fee_code),
         ("currency", .str r.currency), ("effective_date", .str (dateStr r.effective_date)),
         ("apply_type", .str r.apply_type.value),
         ("per_item_amount", optJ (fun d => .str (decStr d)) r.per_item_amount),
         ("percentage", optJ (fun d => .str (decStr d)) r.percentage)] := rfl
    rw [hd, h]
    simp [optJ]
  · intro r h
    have hd : to_minimal_dict r =
        [("entity_type", .str r.entity_type.value), ("name", optJ .str r.name)] := rfl
    rw [hd, h]
    simp [optJ]
  · intro r h1 h2
    have hd : to_minimal_dict r =
        [("fee_category", .str r.fee_category), ("fee_code", .str r.fee_code),
         ("currency", .str r.currency), ("effective_date", .str (dateStr r.effective_date)),
         ("apply_type", .str r.apply_type.value),
         ("per_item_amount", optJ (fun d => .str (decStr d)) r.per_item_amount),
         ("percentage", optJ (fun d => .str (decStr d)) r.percentage)] := rfl
    have hk : (to_minimal_dict r).map Prod.fst =
        ["fee_category", "fee_code", "currency", "effective_date", "apply_type",
         "per_item_amount", "percentage"] := rfl
    have hs : decStr ⟨999, 2⟩ = "9.99" := rfl
    refine ⟨?_, ?_, ?_, ?_⟩
    · rw [hd, h1]
      simp [optJ, hs]
    · rw [hd, h2]
      simp [ApplyType.value]
    · rw [hk]
      decide
    · rw [hk]
      decide

/-- Closed instance of the optional-null and example parts of
`C1_minimal_projection_keys`, applied to the demo's first fee rate (whose
`percentage` is unset). -/
theorem C1_minimal_projection_keys_witness :
    ("percentage", J.null) ∈
      to_minimal_dict ((create_pydantic_objects (dtOn 2025 1 1 0 0 0 0)).fee_rate_1) ∧
    ("per_item_amount", J.str "9.99") ∈
      to_minimal_dict ((create_pydantic_objects (dtOn 2025 1 1 0 0 0 0)).fee_rate_1) := by
  refine ⟨C1_minimal_projection_keys.2.2.2.2.2.2.1 _ rfl, ?_⟩
  exact (C1_minimal_projection_keys.2.2.2.2.2.2.2.2 _ rfl rfl).1

/-! ## Claim theorems: rendering consistency and determinism -/

set_option maxRecDepth 20000 in
/-- C3 (refutation): building and serializing the sample graph at two
different clock readings yields two different documents — the
`InvoiceInfo` is constructed without `modified_timestamp`, so its
construction-time default lands in the invoice node's `others` mapping. -/
theorem C3_serialize_not_clock_independent :
    serialize_graph (create_graph (dtOn 2025 1 1 0 0 0 0)) ≠
      serialize_graph (create_graph (dtOn 2025 1 1 0 0 0 1)) := by
  intro h
  have h2 := congrArg
    (fun doc => others_str doc "invoice_info_1" "modified_timestamp") h
  have e1 : others_str (serialize_graph (create_graph (dtOn 2025 1 1 0 0 0 0)))
      "invoice_info_1" "modified_timestamp" = some "2025-01-01 00:00:00" := by decide
  have e2 : others_str (serialize_graph (create_graph (dtOn 2025 1 1 0 0 0 1)))
      "invoice_info_1" "modified_timestamp" = some "2025-01-01 00:00:00.000001" := by
    decide
  simp only [e1, e2] at h2
  exact absurd h2 (by decide)

set_option maxRecDepth 20000 in
/-- C4 (refutation at a concrete value): the `others` bucket of the
`fee_rate_1` node renders `created_timestamp` through `str()` — a space
before the time — while the conversion used by the minimal projection is
`isoformat()` with a `T`; the two strings differ, so the two output shapes
are not rendered through the same conversion. -/
theorem C4_timestamp_rendering_counterexample :
    others_str (serialize_graph (create_graph (dtOn 2025 1 1 0 0 0 0)))
      "fee_rate_1" "created_timestamp" =
      some (dtStr (dtOn 2025 2 25 19 36 38 626269)) ∧
    dtStr (dtOn 2025 2 25 19 36 38 626269) = "2025-02-25 19:36:38.626269" ∧
    dtIso (dtOn 2025 2 25 19 36 38 626269) = "2025-02-25T19:36:38.626269" ∧
    dtStr (dtOn 2025 2 25 19 36 38 626269) ≠ dtIso (dtOn 2025 2 25 19 36 38 626269) := by
  refine ⟨by decide, by decide, by decide, by decide⟩

/-- C4 (amended): in the `others` bucket, decimals, dates and enumerated
tags are rendered with exactly the strings the minimal projection uses
(`str(Decimal)`, `date.isoformat`, the enum's value); timestamps are the one
exception — both buckets share the date and time-of-day fragments, but
`others` joins them with a space (`str(datetime)`) while the minimal
projection joins them with a `T` (`isoformat`), so the rendered timestamp
strings always differ. -/
theorem C4_rendering_consistency_amended :
    (∀ d : Dec, pyToJ (.dec d) = .str (decStr d)) ∧
    (∀ d : Date, pyToJ (.date d) = .str (dateStr d)) ∧
    (∀ s : String, pyToJ (.enum s) = .str s) ∧
    (∀ t : DateTime, pyToJ (.datetime t) = .str (dtStr t)) ∧
    (∀ t : DateTime, dtStr t = String.mk (dateChars t.date ++ ' ' :: timeChars t)) ∧
    (∀ t : DateTime, dtIso t = String.mk (dateChars t.date ++ 'T' :: timeChars t)) ∧
    (∀ t : DateTime, dtStr t ≠ dtIso t) := by
  refine ⟨fun d => rfl, fun d => rfl, fun s => rfl, fun t => rfl, fun t => rfl,
    fun t => rfl, ?_⟩
  intro t h
  rw [dtStr, dtIso] at h
  have h2 : dateChars t.date ++ ' ' :: timeChars t =
      dateChars t.date ++ 'T' :: timeChars t := congrArg String.data h
  have h3 := List.append_cancel_left h2
  simp at h3

/-- Closed instance of `C4_rendering_consistency_amended` at a concrete
timestamp. -/
theorem C4_rendering_consistency_amended_witness :
    dtStr (dtOn 2025 6 2 16 9 52 0) ≠ dtIso (dtOn 2025 6 2 16 9 52 0) :=
  C4_rendering_consistency_amended.2.2.2.2.2.2 (dtOn 2025 6 2 16 9 52 0)

/-! ## Lemmas: construction validation -/

lemma checkOpt_ok {p : α → Prop} [DecidablePred p] {o : Option α} (field : String)
    (h : ∀ a ∈ o, p a) : checkOpt field p o = .ok () := by
  cases o with
  | none => rfl
  | some a => simp [checkOpt, check, h a rfl]

lemma ok_bind {α β : Type} (a : α) (f : α → Except VErr β) :
    (Except.ok a >>= f : Except VErr β) = f a := rfl

lemma err_bind {α β : Type} (e : VErr) (f : α → Except VErr β) :
    (Except.error e >>= f : Except VErr β) = .error e := rfl

lemma decOk_getD {o : Option Dec} (h : ∀ d ∈ o, decOk 12 3 d) :
    decOk 12 3 (o.getD ⟨0, 3⟩) := by
  cases o with
  | none => decide
  | some d => exact h d rfl

lemma feeRate_validate_ok (r : RawFeeRate) (now : DateTime)
    (hreq : r.required_ok) (hcon : r.constraints_ok) :
    (FeeRate.validate now r).isOk = true := by
  obtain ⟨h1, h2, h3, h4, h5, h6, h7, h8⟩ := hreq
  obtain ⟨c1, c2, c3, c4, c5, c6, c7, c8, c9⟩ := hcon
  rcases r with ⟨oid, ouuid, obeu, ocat, ocode, ocur, oeff, oapp, opia, opct, oct, omt, oaud⟩
  obtain ⟨idv, hid⟩ := Option.isSome_iff_exists.mp h1
  obtain ⟨uuidv, huuid⟩ := Option.isSome_iff_exists.mp h2
  obtain ⟨beuv, hbeu⟩ := Option.isSome_iff_exists.mp h3
  obtain ⟨catv, hcat⟩ := Option.isSome_iff_exists.mp h4
  obtain ⟨codev, hcode⟩ := Option.isSome_iff_exists.mp h5
  obtain ⟨curv, hcur⟩ := Option.isSome_iff_exists.mp h6
  obtain ⟨effv, heff⟩ := Option.isSome_iff_exists.mp h7
  obtain ⟨appv, happ⟩ := Option.isSome_iff_exists.mp h8
  subst hid huuid hbeu hcat hcode hcur heff happ
  simp [FeeRate.validate, require, check, ok_bind, c1 idv rfl, c2 uuidv rfl,
    c3 beuv rfl, c4 catv rfl, c5 codev rfl, c6 curv rfl,
    checkOpt_ok _ c7, checkOpt_ok _ c8, checkOpt_ok _ c9, Except.isOk, Except.toBool]

lemma billingEntity_validate_ok (r : RawBillingEntity) (now : DateTime)
    (hreq : r.required_ok) (hcon : r.constraints_ok) :
    (BillingEntity.validate now r).isOk = true := by
  obtain ⟨h1, h2, h3, h4⟩ := hreq
  obtain ⟨c1, c2, c3, c4⟩ := hcon
  rcases r with ⟨oid, ouuid, oeu, oet, oname, oct, omt⟩
  obtain ⟨idv, hid⟩ := Option.isSome_iff_exists.mp h1
  obtain ⟨uuidv, huuid⟩ := Option.isSome_iff_exists.mp h2
  obtain ⟨euv, heu⟩ := Option.isSome_iff_exists.mp h3
  obtain ⟨etv, het⟩ := Option.isSome_iff_exists.mp h4
  subst hid huuid heu het
  simp [BillingEntity.validate, require, check, ok_bind, c1 idv rfl, c2 uuidv rfl,
    c3 euv rfl, checkOpt_ok _ c4, Except.isOk, Except.toBool]

lemma feeSummary_validate_ok (r : RawFeeSummary)
    (hreq : r.required_ok) (hcon : r.constraints_ok) :
    (FeeSummary.validate r).isOk = true := by
  obtain ⟨h1, h2, h3, h4, h5, h6, h7, h8, h9, h10, h11, h12, h13, h14, h15, h16, h17⟩ := hreq
  obtain ⟨c1, c2, c3, c4, c5, c6, c7, c8, c9, c10, c11, c12, c13, c14, c15, c16, c17⟩ := hcon
  rcases r with ⟨oid, ouuid, obeu, obd, ocat, ocode, ocur, otpu, oapu, otba, oaba, otfa,
    ofru, oru, oiiu, ofcla, ocla, odla, oefi, oct, omt⟩
  obtain ⟨idv, hid⟩ := Option.isSome_iff_exists.mp h1
  obtain ⟨uuidv, huuid⟩ := Option.isSome_iff_exists.mp h2
  obtain ⟨beuv, hbeu⟩ := Option.isSome_iff_exists.mp h3
  obtain ⟨bdv, hbd⟩ := Option.isSome_iff_exists.mp h4
  obtain ⟨catv, hcat⟩ := Option.isSome_iff_exists.mp h5
  obtain ⟨codev, hcode⟩ := Option.isSome_iff_exists.mp h6
  obtain ⟨curv, hcur⟩ := Option.isSome_iff_exists.mp h7
  obtain ⟨tpuv, htpu⟩ := Option.isSome_iff_exists.mp h8
  obtain ⟨apuv, hapu⟩ := Option.isSome_iff_exists.mp h9
  obtain ⟨tbav, htba⟩ := Option.isSome_iff_exists.mp h10
  obtain ⟨abav, haba⟩ := Option.isSome_iff_exists.mp h11
  obtain ⟨tfav, htfa⟩ := Option.isSome_iff_exists.mp h12
  obtain ⟨fruv, hfru⟩ := Option.isSome_iff_exists.mp h13
  obtain ⟨ruv, hru⟩ := Option.isSome_iff_exists.mp h14
  obtain ⟨efiv, hefi⟩ := Option.isSome_iff_exists.mp h15
  obtain ⟨ctv, hct⟩ := Option.isSome_iff_exists.mp h16
  obtain ⟨mtv, hmt⟩ := Option.isSome_iff_exists.mp h17
  subst hid huuid hbeu hbd hcat hcode hcur htpu hapu htba haba htfa hfru hru hefi hct hmt
  simp [FeeSummary.validate, require, check, ok_bind, c1 idv rfl, c2 uuidv rfl,
    c3 beuv rfl, c4 catv rfl, c5 codev rfl, c6 curv rfl, c7 tpuv rfl, c8 apuv rfl,
    c9 tbav rfl, c10 abav rfl, c11 tfav rfl, c12 fruv rfl, c13 ruv rfl,
    checkOpt_ok _ c14, checkOpt_ok _ c15, checkOpt_ok _ c16, checkOpt_ok _ c17,
    Except.isOk, Except.toBool]

lemma settlement_validate_ok (r : RawSettlement) (now : DateTime)
    (hreq : r.required_ok) (hcon : r.constraints_ok) :
    (Settlement.validate now r).isOk = true := by
  obtain ⟨h1, h2, h3, h4, h5, h6, h7, h8, h9, h10⟩ := hreq
  obtain ⟨c1, c2, c3, c4, c5, c6, c7, c8, c9, c10, c11, c12, c13, c14, c15, c16, c17⟩ := hcon
  rcases r with ⟨oid, ouuid, osd, obeu, oeu, oalt, opr, ocur, ota, ofa, ot1, ot2, ot3, ot4,
    ollak, ogl, oitem, olin, oru, oct, omt⟩
  obtain ⟨idv, hid⟩ := Option.isSome_iff_exists.mp h1
  obtain ⟨uuidv, huuid⟩ := Option.isSome_iff_exists.mp h2
  obtain ⟨sdv, hsd⟩ := Option.isSome_iff_exists.mp h3
  obtain ⟨beuv, hbeu⟩ := Option.isSome_iff_exists.mp h4
  obtain ⟨euv, heu⟩ := Option.isSome_iff_exists.mp h5
  obtain ⟨prv, hpr⟩ := Option.isSome_iff_exists.mp h6
  obtain ⟨curv, hcur⟩ := Option.isSome_iff_exists.mp h7
  obtain ⟨tav, hta⟩ := Option.isSome_iff_exists.mp h8
  obtain ⟨fav, hfa⟩ := Option.isSome_iff_exists.mp h9
  obtain ⟨llakv, hllak⟩ := Option.isSome_iff_exists.mp h10
  subst hid huuid hsd hbeu heu hpr hcur hta hfa hllak
  simp [Settlement.validate, require, check, ok_bind, c1 idv rfl, c2 uuidv rfl,
    c3 beuv rfl, c4 euv rfl, checkOpt_ok _ c5, c6 curv rfl, c7 tav rfl, c8 fav rfl,
    decOk_getD c9, decOk_getD c10, decOk_getD c11, decOk_getD c12, c13 llakv rfl,
    checkOpt_ok _ c14, checkOpt_ok _ c15, checkOpt_ok _ c16, checkOpt_ok _ c17,
    Except.isOk, Except.toBool]

lemma scale4_not_ok {d : Dec} (h : 4 ≤ d.scale) : ¬ decOk 12 3 d := by
  intro hc
  simp only [decOk] at hc
  omega

set_option maxRecDepth 20000 in
/-- C7: for each embedded entity type, construction with any single required
field omitted fails validation (shown at the demo's own keyword sets), and
construction with all required fields present and all values within their
declared constraints succeeds, for every raw input. -/
theorem C7_construction_validation :
    (∀ fld ∈ FeeRate.required_fields,
      (FeeRate.validate (dtOn 2025 1 1 0 0 0 0) (raw_fee_rate_good.erase fld)).isOk
        = false) ∧
    (∀ fld ∈ BillingEntity.required_fields,
      (BillingEntity.validate (dtOn 2025 1 1 0 0 0 0)
        (raw_billing_entity_good.erase fld)).isOk = false) ∧
    (∀ fld ∈ FeeSummary.required_fields,
      (FeeSummary.validate (raw_fee_summary_good.erase fld)).isOk = false) ∧
    (∀ fld ∈ Settlement.required_fields,
      (Settlement.validate (dtOn 2025 1 1 0 0 0 0)
        (raw_settlement_good.erase fld)).isOk = false) ∧
    (FeeRate.validate (dtOn 2025 1 1 0 0 0 0) raw_fee_rate_good).isOk = true ∧
    (BillingEntity.validate (dtOn 2025 1 1 0 0 0 0) raw_billing_entity_good).isOk = true ∧
    (FeeSummary.validate raw_fee_summary_good).isOk = true ∧
    (Settlement.validate (dtOn 2025 1 1 0 0 0 0) raw_settlement_good).isOk = true ∧
    (∀ r : RawFeeRate, ∀ now, r.required_ok → r.constraints_ok →
      (FeeRate.validate now r).isOk = true) ∧
    (∀ r : RawBillingEntity, ∀ now, r.required_ok → r.constraints_ok →
      (BillingEntity.validate now r).isOk = true) ∧
    (∀ r : RawFeeSummary, r.required_ok → r.constraints_ok →
      (FeeSummary.validate r).isOk = true) ∧
    (∀ r : RawSettlement, ∀ now, r.required_ok → r.constraints_ok →
      (Settlement.validate now r).isOk = true) := by
  refine ⟨by decide, by decide, by decide, by decide, by decide, by decide, by decide,
    by decide, feeRate_validate_ok, billingEntity_validate_ok, feeSummary_validate_ok,
    settlement_validate_ok⟩

set_option maxRecDepth 20000 in
/-- C9: the `per_item_amount` field (3 declared decimal places) rejects at
construction any value whose scale carries a fourth fractional digit, while
the 3-place value `99.990` is accepted, stored with its trailing zero intact,
rendered back as the string `99.990`, and re-parsed to exactly the same
decimal. -/
theorem C9_decimal_three_places :
    (∀ d : Dec, 4 ≤ d.scale →
      (FeeRate.validate (dtOn 2025 1 1 0 0 0 0)
        { raw_fee_rate_good with per_item_amount := some d }).isOk = false) ∧
    (FeeRate.validate (dtOn 2025 1 1 0 0 0 0)
        { raw_fee_rate_good with per_item_amount := some ⟨99990, 3⟩ }).map
      (fun r => r.per_item_amount) = .ok (some ⟨99990, 3⟩) ∧
    decStr ⟨99990, 3⟩ = "99.990" ∧
    parseDec "99.990" = some ⟨99990, 3⟩ := by
  refine ⟨?_, by rfl, by decide, by decide⟩
  intro d h
  simp +decide [FeeRate.validate, raw_fee_rate_good, require, check, checkOpt, ok_bind,
    err_bind, scale4_not_ok h, Except.isOk, Except.toBool]

/-! ## Lemmas: digit rendering and parsing are mutually inverse -/

lemma digit_char_val : ∀ d, d < 10 → charVal (digitChar d) = d := by decide

lemma digit_isDigit : ∀ d, d < 10 → isDigit (digitChar d) = true := by decide

lemma foldDigits_append_one (cs : List Char) (c : Char) :
    foldDigits (cs ++ [c]) = 10 * foldDigits cs + charVal c := by
  simp [foldDigits, List.foldl_append]

lemma foldDigits_natCharsAux : ∀ fuel n, n < fuel →
    foldDigits (natCharsAux fuel n) = n := by
  intro fuel
  induction fuel with
  | zero => omega
  | succ fuel ih =>
    intro n h
    by_cases hn : n < 10
    · simp [natCharsAux, hn, foldDigits, digit_char_val n hn]
    · have hd : n / 10 < fuel := by omega
      simp [natCharsAux, hn, foldDigits_append_one, ih (n / 10) hd,
        digit_char_val (n % 10) (by omega)]
      omega

lemma foldDigits_natChars (n : Nat) : foldDigits (natChars n) = n :=
  foldDigits_natCharsAux (n + 1) n (by omega)

lemma natCharsAux_all_digits : ∀ fuel n, (natCharsAux fuel n).all isDigit = true := by
  intro fuel
  induction fuel with
  | zero => intro n; rfl
  | succ fuel ih =>
    intro n
    by_cases hn : n < 10
    · simp [natCharsAux, hn, digit_isDigit n hn]
    · simp [natCharsAux, hn, List.all_append, ih (n / 10),
        digit_isDigit (n % 10) (by omega)]

lemma natChars_all_digits (n : Nat) : (natChars n).all isDigit = true :=
  natCharsAux_all_digits (n + 1) n

lemma natChars_ne_nil (n : Nat) : natChars n ≠ [] := by
  unfold natChars natCharsAux
  split <;> simp

lemma natCharsAux_length_le : ∀ fuel n w, n < fuel → n < 10 ^ w → 0 < w →
    (natCharsAux fuel n).length ≤ w := by
  intro fuel
  induction fuel with
  | zero => omega
  | succ fuel ih =>
    intro n w h hw h0
    by_cases hn : n < 10
    · simp [natCharsAux, hn]
      omega
    · have hw2 : 2 ≤ w := by
        by_contra hc
        have : w = 1 := by omega
        subst this
        simp at hw
        omega
      have hdiv : n / 10 < 10 ^ (w - 1) := by
        have h10 : 0 < (10 : Nat) := by norm_num
        rw [Nat.div_lt_iff_lt_mul h10]
        have : 10 ^ (w - 1) * 10 = 10 ^ w := by
          have : w - 1 + 1 = w := by omega
          calc 10 ^ (w - 1) * 10 = 10 ^ (w - 1 + 1) := by rw [pow_succ]
          _ = 10 ^ w := by rw [this]
        omega
      have hfd : n / 10 < fuel := by omega
      have := ih (n / 10) (w - 1) hfd hdiv (by omega)
      simp [natCharsAux, hn, List.length_append]
      omega

lemma natChars_length_le {n w : Nat} (h : n < 10 ^ w) (h0 : 0 < w) :
    (natChars n).length ≤ w :=
  natCharsAux_length_le (n + 1) n w (by omega) h h0

lemma padChars_length {w n : Nat} (h : n < 10 ^ w) (h0 : 0 < w) :
    (padChars w n).length = w := by
  have := natChars_length_le h h0
  simp [padChars, List.length_append, List.length_replicate]
  omega

lemma replicate_zero_all_digits : ∀ k, (List.replicate k '0').all isDigit = true := by
  intro k
  induction k with
  | zero => rfl
  | succ k ih => simp +decide [List.replicate, ih]

lemma padChars_all_digits (w n : Nat) : (padChars w n).all isDigit = true := by
  simp +decide [padChars, List.all_append, replicate_zero_all_digits, natChars_all_digits]

lemma foldl_replicate_zero : ∀ k, List.foldl (fun a c => 10 * a + charVal c) 0
    (List.replicate k '0') = 0 := by
  intro k
  induction k with
  | zero => rfl
  | succ k ih => simpa [List.replicate, charVal] using ih

lemma foldDigits_padChars (w n : Nat) : foldDigits (padChars w n) = n := by
  have h1 := foldl_replicate_zero (w - (natChars n).length)
  have h2 := foldDigits_natChars n
  simp [padChars, foldDigits, List.foldl_append] at h2 ⊢
  rw [h1]
  exact h2

lemma breakAt_of_not_mem {sep : Char} : ∀ {cs : List Char}, (∀ c ∈ cs, c ≠ sep) →
    breakAt sep cs = (cs, none) := by
  intro cs
  induction cs with
  | nil => intro h; rfl
  | cons c cs ih =>
    intro h
    have hc : c ≠ sep := h c (by simp)
    simp [breakAt, hc, ih (fun x hx => h x (by simp [hx]))]

lemma breakAt_append {sep : Char} : ∀ {xs : List Char} (ys : List Char),
    (∀ c ∈ xs, c ≠ sep) → breakAt sep (xs ++ sep :: ys) = (xs, some ys) := by
  intro xs
  induction xs with
  | nil => intro ys h; simp [breakAt]
  | cons c xs ih =>
    intro ys h
    have hc : c ≠ sep := h c (by simp)
    simp [breakAt, hc, ih ys (fun x hx => h x (by simp [hx]))]

lemma ne_sep_of_digits {cs : List Char} (h : cs.all isDigit = true) {sep : Char}
    (hs : isDigit sep = false) : ∀ c ∈ cs, c ≠ sep := by
  intro c hc hceq
  subst hceq
  rw [List.all_eq_true] at h
  have := h c hc
  rw [hs] at this
  exact absurd this (by simp)



lemma head_ne_dash_of_digits {cs : List Char} (hall : cs.all isDigit = true)
    (h : cs ≠ []) : cs.head? ≠ some '-' := by
  cases cs with
  | nil => exact absurd rfl h
  | cons c cs' =>
    simp only [List.head?, ne_eq, Option.some.injEq]
    intro hc
    subst hc
    simp [List.all_cons] at hall
    exact absurd hall.1 (by decide)

lemma head?_append_of_ne_nil {cs rest : List Char} (h : cs ≠ []) :
    (cs ++ rest).head? = cs.head? := by
  cases cs with
  | nil => exact absurd rfl h
  | cons c cs' => rfl

lemma parseDecAux_int (neg : Bool) (a : Nat) :
    parseDecAux neg (natChars a) =
      some ⟨if neg then -(a : Int) else (a : Int), 0⟩ := by
  have hall := natChars_all_digits a
  have hnil := natChars_ne_nil a
  have hb : breakAt '.' (natChars a) = (natChars a, none) :=
    breakAt_of_not_mem (ne_sep_of_digits hall (by decide))
  simp [parseDecAux, hb, hnil, hall, foldDigits_natChars]

lemma parseDecAux_frac (neg : Bool) (a e : Nat) (he : 0 < e) :
    parseDecAux neg (natChars (a / 10 ^ e) ++ '.' :: padChars e (a % 10 ^ e)) =
      some ⟨if neg then -(a : Int) else (a : Int), e⟩ := by
  have hmod : a % 10 ^ e < 10 ^ e := Nat.mod_lt _ (by positivity)
  have hlen : (padChars e (a % 10 ^ e)).length = e := padChars_length hmod he
  have hfne : padChars e (a % 10 ^ e) ≠ [] := by
    intro hc
    rw [hc] at hlen
    simp at hlen
    omega
  have hb : breakAt '.' (natChars (a / 10 ^ e) ++ '.' :: padChars e (a % 10 ^ e)) =
      (natChars (a / 10 ^ e), some (padChars e (a % 10 ^ e))) :=
    breakAt_append _ (ne_sep_of_digits (natChars_all_digits _) (by decide))
  have hm : foldDigits (natChars (a / 10 ^ e)) * 10 ^ e
      + foldDigits (padChars e (a % 10 ^ e)) = a := by
    rw [foldDigits_natChars, foldDigits_padChars, Nat.div_add_mod']
  simp only [parseDecAux, hb]
  rw [if_pos ⟨natChars_ne_nil _, hfne, natChars_all_digits _, padChars_all_digits _ _⟩]
  simp only [hlen, hm]

lemma parseDec_decStr (d : Dec) : parseDec (decStr d) = some d := by
  rcases d with ⟨m, e⟩
  show parseDecChars (decChars ⟨m, e⟩) = some ⟨m, e⟩
  by_cases hm : m < 0 <;> by_cases he : e = 0
  · subst he
    have hbody : decChars ⟨m, 0⟩ = '-' :: natChars m.natAbs := by
      simp [decChars, hm]
    rw [hbody, parseDecChars]
    simp only [List.head?, reduceIte, List.tail_cons, parseDecAux_int]
    simp only [reduceIte, Option.some.injEq, Dec.mk.injEq, and_true]
    omega
  · have hbody : decChars ⟨m, e⟩ =
        '-' :: (natChars (m.natAbs / 10 ^ e) ++ '.' :: padChars e (m.natAbs % 10 ^ e)) := by
      simp [decChars, hm, he]
    rw [hbody, parseDecChars]
    simp only [List.head?, reduceIte, List.tail_cons]
    rw [parseDecAux_frac true _ e (by omega)]
    simp only [reduceIte, Option.some.injEq, Dec.mk.injEq, and_true]
    omega
  · subst he
    have hbody : decChars ⟨m, 0⟩ = natChars m.natAbs := by
      simp [decChars, hm]
    rw [hbody, parseDecChars]
    rw [if_neg (head_ne_dash_of_digits (natChars_all_digits _) (natChars_ne_nil _))]
    rw [parseDecAux_int]
    simp only [Bool.false_eq_true, reduceIte, Option.some.injEq, Dec.mk.injEq, and_true]
    omega
  · have hbody : decChars ⟨m, e⟩ =
        natChars (m.natAbs / 10 ^ e) ++ '.' :: padChars e (m.natAbs % 10 ^ e) := by
      simp [decChars, hm, he]
    rw [hbody, parseDecChars]
    rw [if_neg (by
      rw [head?_append_of_ne_nil (natChars_ne_nil _)]
      exact head_ne_dash_of_digits (natChars_all_digits _) (natChars_ne_nil _))]
    rw [parseDecAux_frac false _ e (by omega)]
    simp only [Bool.false_eq_true, reduceIte, Option.some.injEq, Dec.mk.injEq, and_true]
    omega



lemma days_le_31 (y mo : Nat) : days_in_month y mo ≤ 31 := by
  unfold days_in_month
  split
  · split <;> omega
  · split <;> omega

lemma parseDate_dateChars {d : Date} (h : dateOk d) :
    parseDateChars (dateChars d) = some d := by
  obtain ⟨hy1, hy2, hm1, hm2, hd1, hd2⟩ := h
  have hy : d.year < 10 ^ 4 := by
    have : (10 : Nat) ^ 4 = 10000 := by norm_num
    omega
  have hmo : d.month < 10 ^ 2 := by
    have : (10 : Nat) ^ 2 = 100 := by norm_num
    omega
  have hdy : d.day < 10 ^ 2 := by
    have h31 := days_le_31 d.year d.month
    have : (10 : Nat) ^ 2 = 100 := by norm_num
    omega
  have hb1 : breakAt '-'
      (padChars 4 d.year ++ '-' :: (padChars 2 d.month ++ '-' :: padChars 2 d.day)) =
      (padChars 4 d.year, some (padChars 2 d.month ++ '-' :: padChars 2 d.day)) :=
    breakAt_append _ (ne_sep_of_digits (padChars_all_digits _ _) (by decide))
  have hb2 : breakAt '-' (padChars 2 d.month ++ '-' :: padChars 2 d.day) =
      (padChars 2 d.month, some (padChars 2 d.day)) :=
    breakAt_append _ (ne_sep_of_digits (padChars_all_digits _ _) (by decide))
  simp only [parseDateChars, dateChars, hb1, hb2]
  rw [if_pos ⟨padChars_length hy (by omega), padChars_length hmo (by omega),
    padChars_length hdy (by omega), padChars_all_digits _ _, padChars_all_digits _ _,
    padChars_all_digits _ _⟩]
  simp only [foldDigits_padChars]
  rw [if_pos (show dateOk ⟨d.year, d.month, d.day⟩ from ⟨hy1, hy2, hm1, hm2, hd1, hd2⟩)]

lemma timeChars_assoc (t : DateTime) : timeChars t =
    padChars 2 t.hour ++ ':' :: (padChars 2 t.minute ++ ':' :: (padChars 2 t.second ++
      (if t.microsecond = 0 then [] else '.' :: padChars 6 t.microsecond))) := by
  simp [timeChars, List.append_assoc]

lemma parseTime_timeChars {t : DateTime} (hh : t.hour < 24) (hmi : t.minute < 60)
    (hs : t.second < 60) (hus : t.microsecond < 1000000) :
    parseTimeChars (timeChars t) = some (t.hour, t.minute, t.second, t.microsecond) := by
  have hh2 : t.hour < 10 ^ 2 := by
    have : (10 : Nat) ^ 2 = 100 := by norm_num
    omega
  have hmi2 : t.minute < 10 ^ 2 := by
    have : (10 : Nat) ^ 2 = 100 := by norm_num
    omega
  have hs2 : t.second < 10 ^ 2 := by
    have : (10 : Nat) ^ 2 = 100 := by norm_num
    omega
  have hus6 : t.microsecond < 10 ^ 6 := by
    have : (10 : Nat) ^ 6 = 1000000 := by norm_num
    omega
  rw [timeChars_assoc]
  have hb1 : breakAt ':' (padChars 2 t.hour ++ ':' :: (padChars 2 t.minute ++ ':' ::
      (padChars 2 t.second ++
        (if t.microsecond = 0 then [] else '.' :: padChars 6 t.microsecond)))) =
      (padChars 2 t.hour, some (padChars 2 t.minute ++ ':' :: (padChars 2 t.second ++
        (if t.microsecond = 0 then [] else '.' :: padChars 6 t.microsecond)))) :=
    breakAt_append _ (ne_sep_of_digits (padChars_all_digits _ _) (by decide))
  have hb2 : breakAt ':' (padChars 2 t.minute ++ ':' :: (padChars 2 t.second ++
      (if t.microsecond = 0 then [] else '.' :: padChars 6 t.microsecond))) =
      (padChars 2 t.minute, some (padChars 2 t.second ++
        (if t.microsecond = 0 then [] else '.' :: padChars 6 t.microsecond))) :=
    breakAt_append _ (ne_sep_of_digits (padChars_all_digits _ _) (by decide))
  by_cases hus0 : t.microsecond = 0
  · have hb3 : breakAt '.' (padChars 2 t.second ++
        (if t.microsecond = 0 then [] else '.' :: padChars 6 t.microsecond)) =
        (padChars 2 t.second, none) := by
      rw [if_pos hus0, List.append_nil]
      exact breakAt_of_not_mem (ne_sep_of_digits (padChars_all_digits _ _) (by decide))
    simp only [parseTimeChars, hb1, hb2, hb3]
    rw [if_pos ⟨padChars_length hh2 (by omega), padChars_length hmi2 (by omega),
      padChars_length hs2 (by omega), padChars_all_digits _ _, padChars_all_digits _ _,
      padChars_all_digits _ _⟩]
    simp only [foldDigits_padChars, hus0]
  · have hb3 : breakAt '.' (padChars 2 t.second ++
        (if t.microsecond = 0 then [] else '.' :: padChars 6 t.microsecond)) =
        (padChars 2 t.second, some (padChars 6 t.microsecond)) := by
      rw [if_neg hus0]
      exact breakAt_append _ (ne_sep_of_digits (padChars_all_digits _ _) (by decide))
    have hlen6 : (padChars 6 t.microsecond).length = 6 := padChars_length hus6 (by omega)
    simp only [parseTimeChars, hb1, hb2, hb3]
    rw [if_pos ⟨padChars_length hh2 (by omega), padChars_length hmi2 (by omega),
      padChars_length hs2 (by omega), padChars_all_digits _ _, padChars_all_digits _ _,
      padChars_all_digits _ _⟩]
    rw [if_pos ⟨by omega, by rw [hlen6], padChars_all_digits _ _⟩]
    simp only [foldDigits_padChars, hlen6]
    norm_num

lemma dateChars_ne_T {d : Date} : ∀ c ∈ dateChars d, c ≠ 'T' := by
  intro c hc
  simp only [dateChars, List.mem_append, List.mem_cons] at hc
  rcases hc with h | h | h | h | h
  · exact ne_sep_of_digits (padChars_all_digits _ _) (by decide) c h
  · subst h; decide
  · exact ne_sep_of_digits (padChars_all_digits _ _) (by decide) c h
  · subst h; decide
  · exact ne_sep_of_digits (padChars_all_digits _ _) (by decide) c h

lemma parseDateTime_dtIso {t : DateTime} (h : dtOk t) :
    parseDateTime (dtIso t) = some t := by
  obtain ⟨hdate, hh, hmi, hs, hus⟩ := h
  show parseDateTimeChars (dateChars t.date ++ 'T' :: timeChars t) = some t
  have hb : breakAt 'T' (dateChars t.date ++ 'T' :: timeChars t) =
      (dateChars t.date, some (timeChars t)) := breakAt_append _ dateChars_ne_T
  simp only [parseDateTimeChars, hb]
  simp only [parseDate_dateChars hdate, parseTime_timeChars hh hmi hs hus]
  rw [if_pos ⟨hh, hmi, hs⟩]

lemma applyType_parse_value (a : ApplyType) : ApplyType.parse a.value = some a := by
  cases a <;> rfl



lemma parseDate_dateStr {d : Date} (h : dateOk d) : parseDate (dateStr d) = some d :=
  parseDate_dateChars h

lemma raw_of_json_dump (r : FeeRate) (h7 : dateOk r.effective_date)
    (h10 : dtOk r.created_timestamp) (h11 : dtOk r.modified_timestamp) :
    FeeRate.raw_of_json (FeeRate.model_dump_json r) = .ok
      ⟨some r.id, some r.uuid, some r.billing_entity_uuid, some r.fee_category,
       some r.fee_code, some r.currency, some r.effective_date, some r.apply_type,
       r.per_item_amount, r.percentage, some r.created_timestamp,
       some r.modified_timestamp, r.audit_id⟩ := by
  cases hp : r.per_item_amount <;> cases hq : r.percentage <;> cases ha : r.audit_id <;>
    simp [FeeRate.raw_of_json, FeeRate.model_dump_json, readInt, readStr, readOptStr,
      readOptDec, readDate, readDateTime, readApply, List.lookup, ok_bind, optJ, hp, hq,
      ha, parseDec_decStr, parseDate_dateStr h7, parseDateTime_dtIso h10,
      parseDateTime_dtIso h11, applyType_parse_value]

lemma validate_dump_raw (r : FeeRate) (h : r.Valid) (now : DateTime) :
    FeeRate.validate now ⟨some r.id, some r.uuid, some r.billing_entity_uuid,
      some r.fee_category, some r.fee_code, some r.currency, some r.effective_date,
      some r.apply_type, r.per_item_amount, r.percentage, some r.created_timestamp,
      some r.modified_timestamp, r.audit_id⟩ = .ok r := by
  obtain ⟨v1, v2, v3, v4, v5, v6, v7, v8, v9, v10, v11, v12⟩ := h
  simp [FeeRate.validate, require, check, ok_bind, v1, v2, v3, v4, v5, v6,
    checkOpt_ok _ v8, checkOpt_ok _ v9, checkOpt_ok _ v12, Option.getD]

/-- C8: serializing a valid `FeeRate` to its full JSON representation and
re-parsing it with `model_validate_json` yields exactly the original
instance, field for field; the parse-time clock `now` is arbitrary, so
construction-time defaults are captured from the serialized form, never
regenerated. -/
theorem C8_full_roundtrip (r : FeeRate) (h : r.Valid) (now : DateTime) :
    FeeRate.model_validate_json now (FeeRate.model_dump_json r) = .ok r := by
  rw [FeeRate.model_validate_json, raw_of_json_dump r h.2.2.2.2.2.2.1
    h.2.2.2.2.2.2.2.2.2.1 h.2.2.2.2.2.2.2.2.2.2.1]
  exact validate_dump_raw r h now



set_option maxRecDepth 20000 in
/-- Closed instance of `C8_full_roundtrip`: the demo's first fee rate is
valid and round-trips exactly, with a parse-time clock one year later. -/
theorem C8_full_roundtrip_witness :
    FeeRate.Valid ((create_pydantic_objects (dtOn 2025 1 1 0 0 0 0)).fee_rate_1) ∧
    FeeRate.model_validate_json (dtOn 2026 1 1 0 0 0 0)
      (FeeRate.model_dump_json ((create_pydantic_objects (dtOn 2025 1 1 0 0 0 0)).fee_rate_1)) =
      .ok ((create_pydantic_objects (dtOn 2025 1 1 0 0 0 0)).fee_rate_1) :=
  ⟨by decide, C8_full_roundtrip _ (by decide) _⟩


end GraphDemo
